import Mathlib

/-!
Verification development for the Northwind BI ETL pipeline
(scripts/etl_northwind.py and scripts/etl_northwind_sqlserver.py).

The pipeline is embedded shallowly: a pandas DataFrame becomes a `DF`
(a list of association-list rows together with a column-name list), a
cell becomes `Option Value` (with `none` playing the role of NaN/NaT/None),
and each pandas operation used by the scripts becomes an executable Lean
function.  Fallible pandas operations (KeyError on a missing column,
TypeError on `len(None)`, failing `astype` casts) become `Except EtlError`.

Modelling conventions, fixed once here:
  * numeric cells are exact rationals (the scripts never rely on
    floating-point rounding in any property considered below);
  * date cells carry an explicit `Timestamp` (year, month, day, plus a
    time-of-day component); `pd.to_datetime(errors="coerce")` maps a
    date cell to itself and any other cell to NaT, which models parse
    failure of non-date text;
  * `pd.to_numeric(errors="coerce")` maps numeric cells to themselves,
    boolean cells to 0/1, and all other cells to NaN;
  * a groupby produces its groups in first-appearance order of the keys
    (pandas sorts group keys; no property below depends on the row order
    of the aggregate, which is consumed through a key lookup join).
-/

namespace Northwind

/-- A calendar timestamp: date components plus a time-of-day component
(seconds within the day).  `strftime("%Y%m%d")` only looks at the date
components, while equality of timestamps also compares the time of day. -/
structure Timestamp where
  year : ℕ
  month : ℕ
  day : ℕ
  tod : ℕ
deriving DecidableEq, Repr

/-- The `YYYYMMDD` integer produced by `strftime("%Y%m%d")` followed by
`astype(int)`. -/
def Timestamp.timeKey (t : Timestamp) : ℤ :=
  (t.year * 10000 + t.month * 100 + t.day : ℕ)

/-- A scalar cell value.  NaN / NaT / None is represented as `none` at the
`Option Value` level, so `Value` itself only covers non-null scalars. -/
inductive Value where
  | vStr : String → Value
  | vNum : ℚ → Value
  | vBool : Bool → Value
  | vDate : Timestamp → Value
deriving DecidableEq, Repr

/-- A row of a DataFrame: an association list from column name to cell.
A missing binding reads as NaN, like a cell left unfilled by `pd.concat`
of frames with different columns. -/
abbrev Row := List (String × Option Value)

/-- A DataFrame: its column list (the header, present even for an empty
frame) and its rows. -/
structure DF where
  cols : List String
  rows : List Row
deriving DecidableEq, Repr, Inhabited

/-- Errors raised by the pipeline, mirroring the Python exception classes
that can escape the scripts.  `missingDependency` is the error category
demanded by the specification for consuming an absent table; it is part of
the taxonomy so that statements can ask whether the code ever produces it. -/
inductive EtlError where
  | keyError : String → EtlError
  | typeError : String → EtlError
  | valueError : String → EtlError
  | missingDependency : String → EtlError
deriving DecidableEq, Repr

/-- Decidable equality of results, so that concrete runs can be checked by
evaluation. -/
instance {ε α : Type} [DecidableEq ε] [DecidableEq α] : DecidableEq (Except ε α) := fun x y =>
  match x, y with
  | Except.ok a, Except.ok b =>
    if h : a = b then Decidable.isTrue (by rw [h])
    else Decidable.isFalse (fun hc => h (Except.ok.inj hc))
  | Except.error a, Except.error b =>
    if h : a = b then Decidable.isTrue (by rw [h])
    else Decidable.isFalse (fun hc => h (Except.error.inj hc))
  | Except.ok _, Except.error _ => Decidable.isFalse (fun hc => Except.noConfusion hc)
  | Except.error _, Except.ok _ => Decidable.isFalse (fun hc => Except.noConfusion hc)

/-- Reading a cell: the first binding for the column, `none` when the
binding is absent or the cell is null. -/
def Row.getV (r : Row) (c : String) : Option Value :=
  match r.lookup c with
  | some v => v
  | none => none

/-- Writing a cell: replaces every binding for the column in place, or
appends a new binding at the end (pandas adds new columns on the right). -/
def Row.setV (r : Row) (c : String) (v : Option Value) : Row :=
  if r.any (fun p => p.1 = c) then
    r.map (fun p => if p.1 = c then (c, v) else p)
  else r ++ [(c, v)]

/-- Removing a column from a row (`df.drop(columns=...)`). -/
def Row.eraseCol (r : Row) (c : String) : Row :=
  r.filter (fun p => p.1 ≠ c)

/-- Renaming columns of a row (`df.rename(columns=...)`). -/
def Row.renameCols (m : List (String × String)) (r : Row) : Row :=
  r.map (fun p =>
    match m.lookup p.1 with
    | some c2 => (c2, p.2)
    | none => p)

/-- The key of a row with respect to a set of key columns:
the list of cells in those columns. -/
def keyOf (subset : List String) (r : Row) : List (Option Value) :=
  subset.map r.getV

/-- Worker for `drop_duplicates(keep="first")`: keeps an element when its
key has not been seen before. -/
def dedupByGo {β α : Type} [DecidableEq α] (f : β → α) (seen : List α) :
    List β → List β
  | [] => []
  | a :: as =>
    if f a ∈ seen then dedupByGo f seen as
    else a :: dedupByGo f (f a :: seen) as

/-- `drop_duplicates(keep="first")` with respect to a key function. -/
def dedupBy {β α : Type} [DecidableEq α] (f : β → α) (l : List β) : List β :=
  dedupByGo f [] l

/-- `pd.to_numeric(errors="coerce")` on a cell: numbers pass through,
booleans coerce to 0/1, everything else (text, dates, null) becomes NaN. -/
def toNumeric : Option Value → Option ℚ
  | some (Value.vNum q) => some q
  | some (Value.vBool b) => some (if b then 1 else 0)
  | _ => none

/-- `pd.to_datetime(errors="coerce")` on a cell: date cells pass through,
everything else becomes NaT (unparseable values are modelled as non-date
cells). -/
def toDatetime : Option Value → Option Timestamp
  | some (Value.vDate t) => some t
  | _ => none

/-- Truncation toward zero, as performed by `astype(int)` on a float. -/
def ratTrunc (q : ℚ) : ℤ :=
  if 0 ≤ q then ⌊q⌋ else -⌊-q⌋

/-- Python `str()` of a cell, as applied by `astype(str)`: NaN prints as
the literal text `nan`.  The renderings of numbers, booleans and dates
model the shape of the Python reprs; no property below depends on their
exact spelling for non-string cells. -/
def pyStr : Option Value → String
  | none => "nan"
  | some (Value.vStr s) => s
  | some (Value.vNum q) =>
    if q.den = 1 then toString q.num ++ ".0"
    else toString q.num ++ "/" ++ toString q.den
  | some (Value.vBool b) => if b then "True" else "False"
  | some (Value.vDate t) =>
    toString t.year ++ "-" ++ toString t.month ++ "-" ++ toString t.day

/-- Python truthiness, as applied by `astype(bool)` on an object column. -/
def pyBool : Option Value → Bool
  | none => false
  | some (Value.vStr s) => s ≠ ""
  | some (Value.vNum q) => q ≠ 0
  | some (Value.vBool b) => b
  | some (Value.vDate _) => true

/-- Order-preserving union of column lists, as used by `pd.concat` on
frames with possibly different columns. -/
def colUnion (a b : List String) : List String :=
  a ++ b.filter (fun c => c ∉ a)

/-- The row-level effect of an in-place column update: set the column to
a function of its own cell. -/
def applyCol (c : String) (f : Option Value → Option Value) (r : Row) : Row :=
  r.setV c (f (r.getV c))

/-- The row-level effect of assigning a column computed from the whole
row. -/
def applyRow (c : String) (f : Row → Option Value) (r : Row) : Row :=
  r.setV c (f r)

/-- In-place update of one column from its own cells
(`df[c] = f(df[c])`); raises KeyError when the column is absent,
because the right-hand side reads it first. -/
def DF.mapColE (df : DF) (c : String) (f : Option Value → Option Value) :
    Except EtlError DF :=
  if c ∈ df.cols then
    Except.ok { cols := df.cols, rows := df.rows.map (applyCol c f) }
  else Except.error (EtlError.keyError ("column not found: " ++ c))

/-- Assignment of a column computed from whole rows
(`df[c] = expression over other columns`); creates the column if needed. -/
def DF.setColByRow (df : DF) (c : String) (f : Row → Option Value) : DF :=
  { cols := if c ∈ df.cols then df.cols else df.cols ++ [c],
    rows := df.rows.map (applyRow c f) }

/-- `df.drop_duplicates(subset=subset, keep="first")` (pure part; the
caller checks that the subset columns exist, as pandas raises otherwise). -/
def DF.dropDuplicates (df : DF) (subset : List String) : DF :=
  { cols := df.cols, rows := dedupBy (keyOf subset) df.rows }

/-- `df.dropna(subset=subset)` with the default `how="any"`. -/
def DF.dropna (df : DF) (subset : List String) : DF :=
  { cols := df.cols,
    rows := df.rows.filter (fun r => subset.all (fun c => (r.getV c).isSome)) }

/-- `df.drop(columns=c, errors="ignore")`. -/
def DF.dropCol (df : DF) (c : String) : DF :=
  { cols := df.cols.filter (fun c2 => c2 ≠ c),
    rows := df.rows.map (fun r => r.eraseCol c) }

/-- `df.rename(columns=m)`: columns not mentioned in the mapping are kept. -/
def DF.rename (df : DF) (m : List (String × String)) : DF :=
  { cols := df.cols.map (fun c =>
      match m.lookup c with
      | some c2 => c2
      | none => c),
    rows := df.rows.map (Row.renameCols m) }

/-- Column projection `df[[c1, ..., ck]]`; raises KeyError when one of the
requested columns is absent. -/
def DF.selectCols (df : DF) (cs : List String) : Except EtlError DF :=
  if cs.all (fun c => c ∈ df.cols) then
    Except.ok { cols := cs,
                rows := df.rows.map (fun r => cs.map (fun c => (c, r.getV c))) }
  else Except.error (EtlError.keyError "columns not found in projection")

/-- `pd.concat([a, b], ignore_index=True)`: rows of `a` then rows of `b`,
columns the order-preserving union. -/
def DF.concat (a b : DF) : DF :=
  { cols := colUnion a.cols b.cols, rows := a.rows ++ b.rows }

/-- The key-space offset applied to spreadsheet-origin order identifiers
(`EXCEL_ORDER_OFFSET = 200000` in both scripts). -/
def EXCEL_ORDER_OFFSET : ℤ := 200000

/-- ASCII lower-casing of one character (the table names this pipeline
dispatches on are plain ASCII). -/
def lowerChar (c : Char) : Char :=
  if 'A' ≤ c ∧ c ≤ 'Z' then Char.ofNat (c.toNat + 32) else c

/-- The character-level effect of `replace("_", " ")` for a single
character pattern. -/
def underscoreToSpace (c : Char) : Char :=
  if c = '_' then ' ' else c

/-- Removal of leading and trailing whitespace, as done by `strip()`. -/
def trimSpaces (l : List Char) : List Char :=
  ((l.dropWhile Char.isWhitespace).reverse.dropWhile Char.isWhitespace).reverse

/-- The normalised table name used by the order-table dispatch:
`table.lower().replace("_", " ").strip()`, written out over the character
list so that it evaluates inside the kernel. -/
def normTableName (table : String) : String :=
  String.mk (trimSpaces ((table.data.map lowerChar).map underscoreToSpace))

/-- Removal of leading and trailing whitespace from a string
(`.str.strip()`). -/
def pyStrip (s : String) : String :=
  String.mk (trimSpaces s.data)

/-- The shift applied to one spreadsheet row of an order-bearing table:
coerce `OrderID` to a number (dropping the row on failure), truncate to an
integer and add the offset.  This is the `filterMap` view of the three
column-level steps of `_adjust_excel_ids`. -/
def shiftRow (r : Row) : Option Row :=
  (toNumeric (r.getV "OrderID")).map (fun q =>
    r.setV "OrderID" (some (Value.vNum ((ratTrunc q + EXCEL_ORDER_OFFSET : ℤ) : ℚ))))

/-- The inner helper `_adjust_excel_ids` shared verbatim by
`merge_sources` (etl_northwind.py) and `merge_with_excel`
(etl_northwind_sqlserver.py): for Orders / Order Details, require the
`OrderID` column (KeyError otherwise), coerce it to numeric, drop rows
whose coercion failed, truncate and shift by the offset; other tables pass
through unchanged.  The three pandas steps
(`to_numeric` / `dropna` / `astype(int) + offset`) are written out in
sequence. -/
def adjust_excel_ids (table : String) (df : DF) : Except EtlError DF :=
  if normTableName table = "orders" ∨ normTableName table = "order details" then
    if "OrderID" ∈ df.cols then
      let rows1 := df.rows.map (fun r =>
        r.setV "OrderID" ((toNumeric (r.getV "OrderID")).map Value.vNum))
      let rows2 := rows1.filter (fun r => (r.getV "OrderID").isSome)
      let rows3 := rows2.map (fun r =>
        r.setV "OrderID" (match toNumeric (r.getV "OrderID") with
          | some q =>
            some (Value.vNum ((ratTrunc q + EXCEL_ORDER_OFFSET : ℤ) : ℚ))
          | none => none))
      Except.ok { cols := df.cols, rows := rows3 }
    else
      Except.error (EtlError.keyError
        ("Colonne OrderID introuvable dans le fichier Excel pour la table " ++ table))
  else Except.ok df

/-- The concatenation that `merge_sources` builds before the optional
dedup stage: adjusted spreadsheet rows first, then database rows; absent
when both origins are absent. -/
def combinedTable (table : String) (df_excel df_sql : Option DF) :
    Except EtlError (Option DF) := do
  let dfe ← match df_excel with
    | some d => Except.map some (adjust_excel_ids table d)
    | none => Except.ok none
  match dfe, df_sql with
  | none, none => return none
  | some d, none => return some d
  | none, some d => return some d
  | some de, some ds => return some (de.concat ds)

/-- `merge_sources(table, key, dedupe)` of etl_northwind.py, as a function
of the two loaded origins: shift spreadsheet order identifiers, return the
single present origin or the concatenation, and when `dedupe` is set apply
`drop_duplicates(subset, keep="first")`, `dropna(subset)` and
`drop(columns="_source", errors="ignore")` (the pandas subset operations
raise KeyError when a key column is absent from the merged frame). -/
def merge_sources (table : String) (key : List String) (dedupe : Bool)
    (df_excel df_sql : Option DF) : Except EtlError (Option DF) := do
  let subset := key
  let dfo ← combinedTable table df_excel df_sql
  match dfo with
  | none => return none
  | some df =>
    if dedupe then
      if subset.all (fun c => c ∈ df.cols) then
        return some (((df.dropDuplicates subset).dropna subset).dropCol "_source")
      else
        Except.error (EtlError.keyError "key column not found in merged frame")
    else
      return some df

/-- `merge_with_excel(sql_df, table, key_columns, dedupe)` of
etl_northwind_sqlserver.py: identical to `merge_sources` except that the
database origin is passed in and the `_source` column is not dropped. -/
def merge_with_excel (sql_df : Option DF) (table : String)
    (key_columns : List String) (dedupe : Bool) (df_excel : Option DF) :
    Except EtlError (Option DF) := do
  let subset := key_columns
  let dfo ← combinedTable table df_excel sql_df
  match dfo with
  | none => return none
  | some combined =>
    if dedupe then
      if subset.all (fun c => c ∈ combined.cols) then
        return some ((combined.dropDuplicates subset).dropna subset)
      else
        Except.error (EtlError.keyError "key column not found in merged frame")
    else
      return some combined

/-- The fallback date used for missing or unparseable order dates
(`pd.Timestamp("1996-01-01")`). -/
def defaultDate : Timestamp :=
  { year := 1996, month := 1, day := 1, tod := 0 }

/-- Lines 143 to 149 of etl_northwind.py: coerce `Orders.OrderDate` to a
datetime and, when at least one value is missing, fill the missing ones
with the fallback date. -/
def cleanOrderDates (orders : DF) : Except EtlError DF := do
  let o1 ← orders.mapColE "OrderDate" (fun v => (toDatetime v).map Value.vDate)
  let missing := (o1.rows.filter (fun r => (r.getV "OrderDate").isNone)).length
  if missing > 0 then
    o1.mapColE "OrderDate" (fun v =>
      match v with
      | none => some (Value.vDate defaultDate)
      | some x => some x)
  else return o1

/-- One row of the Time dimension, all five fields derived from the order
timestamp. -/
def mkTimeRow (t : Timestamp) : Row :=
  [("TimeKey", some (Value.vNum (t.timeKey : ℚ))),
   ("date", some (Value.vDate t)),
   ("year", some (Value.vNum (t.year : ℚ))),
   ("month", some (Value.vNum (t.month : ℚ))),
   ("day", some (Value.vNum (t.day : ℚ)))]

/-- Lines 154 to 160: the Time dimension is the per-order-row list of
(TimeKey, date, year, month, day) tuples with `drop_duplicates()` over all
columns.  `strftime` on a NaT value yields NaN and the following
`astype(int)` raises, hence the all-dates-present guard. -/
def build_dim_time (ordersD : DF) : Except EtlError DF :=
  if "OrderDate" ∈ ordersD.cols then
    let dates := ordersD.rows.map (fun r => toDatetime (r.getV "OrderDate"))
    if dates.all Option.isSome then
      Except.ok { cols := ["TimeKey", "date", "year", "month", "day"],
                  rows := dedupBy id
                    (dates.map (fun od => mkTimeRow (od.getD defaultDate))) }
    else Except.error (EtlError.valueError "cannot convert NaT to int")
  else Except.error (EtlError.keyError "OrderDate")

/-- Lines 165 to 175: the Customer dimension. -/
def build_dim_customer (customers : DF) : Except EtlError DF := do
  let d ← customers.selectCols ["CustomerID", "CompanyName", "City", "Country", "Phone"]
  let d := d.rename [("CustomerID", "CustomerKey"), ("CompanyName", "CustomerName"),
    ("City", "CustomerCity"), ("Country", "CustomerCountry")]
  return (d.dropna ["CustomerKey"]).dropDuplicates ["CustomerKey"]

/-- Lines 180 to 190: the Employee dimension.  The full-name column is the
pandas string addition `FirstName + " " + LastName`, which propagates
missing values; reading either column raises KeyError when it is absent. -/
def build_dim_employee (employees : DF) : Except EtlError DF := do
  if "FirstName" ∈ employees.cols ∧ "LastName" ∈ employees.cols then
    let e := employees.setColByRow "EmployeeFullName" (fun r =>
      match r.getV "FirstName", r.getV "LastName" with
      | some (Value.vStr f), some (Value.vStr l) => some (Value.vStr (f ++ " " ++ l))
      | _, _ => none)
    let d ← e.selectCols ["EmployeeID", "EmployeeFullName", "FirstName", "LastName",
      "Title", "City", "Country"]
    let d := d.rename [("EmployeeID", "EmployeeKey")]
    return (d.dropna ["EmployeeKey"]).dropDuplicates ["EmployeeKey"]
  else Except.error (EtlError.keyError "FirstName or LastName")

/-- `df[c] = pd.to_numeric(df[c], errors="coerce").astype("Int64")`:
missing cells stay missing, integral values become (nullable) integers,
and the whole cast raises as soon as any value is fractional, since pandas
refuses an unsafe float-to-Int64 cast. -/
def astypeInt64Col (df : DF) (c : String) : Except EtlError DF :=
  if c ∈ df.cols then
    if df.rows.all (fun r => ((toNumeric (r.getV c)).map (fun q => decide (q.den = 1))).getD true) then
      Except.ok
        { cols := df.cols,
          rows := df.rows.map (applyCol c (fun v =>
            (toNumeric v).map (fun q => Value.vNum ((q.num : ℤ) : ℚ)))) }
    else Except.error (EtlError.typeError "cannot safely cast non-equivalent float64 to int64")
  else Except.error (EtlError.keyError c)

/-- Lines 195 to 204: the Shipper dimension. -/
def build_dim_shipper (shippers : DF) : Except EtlError DF := do
  let d ← shippers.selectCols ["ShipperID", "CompanyName", "Phone"]
  let d := d.rename [("ShipperID", "ShipperKey"), ("CompanyName", "ShipperName")]
  let d ← astypeInt64Col d "ShipperKey"
  return (d.dropna ["ShipperKey"]).dropDuplicates ["ShipperKey"]

/-- Lines 209 to 213: the Category dimension. -/
def build_dim_categories (categories : DF) : Except EtlError DF := do
  let d ← categories.selectCols ["CategoryID", "CategoryName"]
  return (d.dropna ["CategoryID"]).dropDuplicates ["CategoryID"]

/-- `left.merge(right, on=onCol, how="left")`.  A left row is paired with
every matching right row, or padded with missing cells when nothing
matches; pandas matches missing keys against missing keys (both joins in
the scripts have a null-free right key column, so this choice is not
observable).  Overlapping non-key columns would be suffixed `_x`/`_y` by
pandas, upon which every later column access in the scripts would raise;
the model surfaces that situation as the KeyError it becomes. -/
def DF.mergeLeft (l r : DF) (onCol : String) : Except EtlError DF :=
  if onCol ∈ l.cols ∧ onCol ∈ r.cols then
    if ∀ c ∈ l.cols, c ∈ r.cols → c = onCol then
      let rcols := r.cols.filter (fun c => c ≠ onCol)
      Except.ok
        { cols := l.cols ++ rcols,
          rows := l.rows.flatMap (fun lr =>
            match r.rows.filter (fun rr => rr.getV onCol = lr.getV onCol) with
            | [] => [lr ++ rcols.map (fun c => (c, (none : Option Value)))]
            | ms => ms.map (fun rr => lr ++ rcols.map (fun c => (c, rr.getV c)))) }
    else Except.error (EtlError.keyError "overlapping non-key columns in merge")
  else Except.error (EtlError.keyError "merge key column not found")

/-- Lines 218 to 238: the Product dimension, including the category join
and the `Unknown` fallback label. -/
def build_dim_product (products dim_categories : DF) : Except EtlError DF := do
  let p ← products.mapColE "ProductID" (fun v => (toNumeric v).map Value.vNum)
  let invalid := (p.rows.filter (fun r => (r.getV "ProductID").isNone)).length
  let p := if invalid > 0 then p.dropna ["ProductID"] else p
  let p ← p.mergeLeft dim_categories "CategoryID"
  let p ← p.mapColE "CategoryName" (fun v =>
    match v with
    | none => some (Value.vStr "Unknown")
    | some x => some x)
  if "ProductID" ∈ p.cols ∧ "ProductName" ∈ p.cols ∧ "UnitPrice" ∈ p.cols ∧
      "Discontinued" ∈ p.cols then
    if (p.rows.map (fun r => toNumeric (r.getV "ProductID"))).all Option.isSome then
      return DF.dropDuplicates
        { cols := ["ProductKey", "ProductName", "UnitPrice", "CategoryName", "Discontinued"],
          rows := p.rows.map (fun r =>
            [("ProductKey",
              some (Value.vNum ((ratTrunc ((toNumeric (r.getV "ProductID")).getD 0) : ℤ) : ℚ))),
             ("ProductName", r.getV "ProductName"),
             ("UnitPrice", r.getV "UnitPrice"),
             ("CategoryName", r.getV "CategoryName"),
             ("Discontinued", some (Value.vBool (pyBool (r.getV "Discontinued"))))]) }
        ["ProductKey"]
    else Except.error (EtlError.valueError "cannot convert NaN to int")
  else Except.error (EtlError.keyError "product columns")

/-- The numeric reading of a cell after the `to_numeric(...).fillna(0.0)`
normalisation. -/
def numCell (v : Option Value) : ℚ :=
  (toNumeric v).getD 0

/-- Lines 247 to 251: coerce the three measure columns of Order Details,
fill missing with zero, compute the per-row `LineTotal` and the constant
`DetailCount = 1` column. -/
def normalizeDetails (order_det : DF) : Except EtlError DF := do
  let od ← order_det.mapColE "Discount" (fun v => some (Value.vNum ((toNumeric v).getD 0)))
  let od ← od.mapColE "Quantity" (fun v => some (Value.vNum ((toNumeric v).getD 0)))
  let od ← od.mapColE "UnitPrice" (fun v => some (Value.vNum ((toNumeric v).getD 0)))
  let od := od.setColByRow "LineTotal" (fun r =>
    some (Value.vNum (numCell (r.getV "UnitPrice") * numCell (r.getV "Quantity") *
      (1 - numCell (r.getV "Discount")))))
  return od.setColByRow "DetailCount" (fun _ => some (Value.vNum 1))

/-- The distinct non-null group keys of the `groupby("OrderID")`, in first
appearance order (pandas drops missing keys from a groupby). -/
def groupKeys (od : DF) : List Value :=
  dedupBy id (od.rows.filterMap (fun r => r.getV "OrderID"))

/-- The aggregate row for one order identifier: count, sum of quantities,
mean of discounts and sum of line totals over its group. -/
def aggRow (od : DF) (k : Value) : Row :=
  let g := od.rows.filter (fun r => r.getV "OrderID" = some k)
  [("OrderID", some k),
   ("DetailCount", some (Value.vNum ((g.map (fun r => numCell (r.getV "DetailCount"))).sum))),
   ("TotalQuantity", some (Value.vNum ((g.map (fun r => numCell (r.getV "Quantity"))).sum))),
   ("AverageDiscount",
    some (Value.vNum ((g.map (fun r => numCell (r.getV "Discount"))).sum / (g.length : ℚ)))),
   ("TotalLineTotal", some (Value.vNum ((g.map (fun r => numCell (r.getV "LineTotal"))).sum)))]

/-- Lines 253 to 261: `detail_summary`, the per-order aggregate of the
normalised Order Details. -/
def detail_summary (od : DF) : Except EtlError DF :=
  if "OrderID" ∈ od.cols then
    Except.ok { cols := ["OrderID", "DetailCount", "TotalQuantity", "AverageDiscount",
                  "TotalLineTotal"],
                rows := (groupKeys od).map (aggRow od) }
  else Except.error (EtlError.keyError "OrderID")

/-- The column renaming of line 277. -/
def factRename : List (String × String) :=
  [("OrderID", "OrderKey"), ("CustomerID", "CustomerKey"),
   ("EmployeeID", "EmployeeKey"), ("ShipVia", "ShipperKey")]

/-- Lines 247 to 290: the fact builder.  Aggregate the details, left-join
the (already date-cleaned) orders against the aggregate, re-normalise the
order date, derive `TimeKey`, zero-fill the measures, coerce `Freight`,
rename the key columns, string-coerce and trim `CustomerKey` and cast
`EmployeeKey` and `ShipperKey` to nullable integers. -/
def build_fact (ordersD order_det : DF) : Except EtlError DF := do
  let od ← normalizeDetails order_det
  let ds ← detail_summary od
  let f ← (ordersD.dropCol "_source").mergeLeft ds "OrderID"
  let f ← f.mapColE "OrderDate" (fun v => some (Value.vDate ((toDatetime v).getD defaultDate)))
  let f ← (f.setColByRow "TimeKey" (fun r =>
    some (Value.vNum ((((toDatetime (r.getV "OrderDate")).getD
      defaultDate).timeKey : ℤ) : ℚ)))).mapColE "DetailCount" (fun v =>
    some (Value.vNum ((ratTrunc ((toNumeric v).getD 0) : ℤ) : ℚ)))
  let f ← f.mapColE "TotalQuantity" (fun v => some (Value.vNum ((toNumeric v).getD 0)))
  let f ← f.mapColE "AverageDiscount" (fun v => some (Value.vNum ((toNumeric v).getD 0)))
  let f ← f.mapColE "TotalLineTotal" (fun v => some (Value.vNum ((toNumeric v).getD 0)))
  let f ← f.mapColE "Freight" (fun v => some (Value.vNum ((toNumeric v).getD 0)))
  let f ← (f.rename factRename).mapColE "CustomerKey"
    (fun v => some (Value.vStr (pyStrip (pyStr v))))
  let f ← astypeInt64Col f "EmployeeKey"
  astypeInt64Col f "ShipperKey"

/-- Dereferencing a possibly absent merged table (`len(orders)` or a
column access on `None` raises TypeError). -/
def requireDF (o : Option DF) : Except EtlError DF :=
  match o with
  | some d => Except.ok d
  | none => Except.error (EtlError.typeError "object of type NoneType has no len")

/-- The fourteen loader results feeding one pipeline run: for each of the
seven logical tables, the spreadsheet origin and the database origin
(either may be absent). -/
structure SourceInputs where
  ordersX : Option DF
  ordersS : Option DF
  orderDetX : Option DF
  orderDetS : Option DF
  customersX : Option DF
  customersS : Option DF
  productsX : Option DF
  productsS : Option DF
  employeesX : Option DF
  employeesS : Option DF
  shippersX : Option DF
  shippersS : Option DF
  categoriesX : Option DF
  categoriesS : Option DF
deriving Repr, Inhabited

/-- The produced star schema. -/
structure StarSchema where
  dim_time : DF
  dim_customer : DF
  dim_product : DF
  dim_employee : DF
  dim_shipper : DF
  dim_categories : DF
  fact_sales : DF
deriving DecidableEq, Repr, Inhabited

/-- `build_star_schema()` of etl_northwind.py as a function of the loader
results: the seven merges of lines 128 to 134, then the dimension and fact
builders, dereferencing each merged table at its first use in source
order (lines 137, 138, 143, 165, 180, 195, 209, 218). -/
def build_star_schema (src : SourceInputs) : Except EtlError StarSchema := do
  let ordersO ← merge_sources "Orders" ["OrderID"] false src.ordersX src.ordersS
  let orderDetO ← merge_sources "Order Details" ["OrderID", "ProductID"] false
    src.orderDetX src.orderDetS
  let customersO ← merge_sources "Customers" ["CustomerID"] true src.customersX src.customersS
  let productsO ← merge_sources "Products" ["ProductID"] true src.productsX src.productsS
  let employeesO ← merge_sources "Employees" ["EmployeeID"] true src.employeesX src.employeesS
  let shippersO ← merge_sources "Shippers" ["ShipperID"] true src.shippersX src.shippersS
  let categoriesO ← merge_sources "Categories" ["CategoryID"] true
    src.categoriesX src.categoriesS
  let orders ← requireDF ordersO
  let order_det ← requireDF orderDetO
  let ordersD ← cleanOrderDates orders
  let dim_time ← build_dim_time ordersD
  let customers ← requireDF customersO
  let dim_customer ← build_dim_customer customers
  let employees ← requireDF employeesO
  let dim_employee ← build_dim_employee employees
  let shippers ← requireDF shippersO
  let dim_shipper ← build_dim_shipper shippers
  let categories ← requireDF categoriesO
  let dim_categories ← build_dim_categories categories
  let products ← requireDF productsO
  let dim_product ← build_dim_product products dim_categories
  let fact ← build_fact ordersD order_det
  return { dim_time := dim_time, dim_customer := dim_customer, dim_product := dim_product,
           dim_employee := dim_employee, dim_shipper := dim_shipper,
           dim_categories := dim_categories, fact_sales := fact }

/-- The table of a successful stage, with a default on error; used only to
name concrete stage outputs in closed statements. -/
def okOrDefault (x : Except EtlError DF) : DF :=
  match x with
  | Except.ok d => d
  | Except.error _ => default

/-- The star schema of a run, with a default value on error; used only to
name the concrete output of a successful run in closed statements. -/
def runStar (src : SourceInputs) : StarSchema :=
  match build_star_schema src with
  | Except.ok s => s
  | Except.error _ => default

/-! Concrete input tables, small but schema-complete, used by the closed
witness and counterexample statements below. -/

/-- A database-origin Orders table with one fully populated order. -/
def egOrders : DF :=
  { cols := ["OrderID", "CustomerID", "EmployeeID", "ShipVia", "Freight", "OrderDate"],
    rows := [[("OrderID", some (Value.vNum 1)),
              ("CustomerID", some (Value.vStr "A")),
              ("EmployeeID", some (Value.vNum 7)),
              ("ShipVia", some (Value.vNum 2)),
              ("Freight", some (Value.vNum 10)),
              ("OrderDate", some (Value.vDate { year := 1996, month := 7, day := 4, tod := 0 }))]] }

/-- A database-origin Order Details table: the two detail rows of the
specification scenario, both for order 1. -/
def egDetails : DF :=
  { cols := ["OrderID", "ProductID", "UnitPrice", "Quantity", "Discount"],
    rows := [[("OrderID", some (Value.vNum 1)),
              ("ProductID", some (Value.vNum 11)),
              ("UnitPrice", some (Value.vNum 10)),
              ("Quantity", some (Value.vNum 2)),
              ("Discount", some (Value.vNum 0))],
             [("OrderID", some (Value.vNum 1)),
              ("ProductID", some (Value.vNum 12)),
              ("UnitPrice", some (Value.vNum 5)),
              ("Quantity", some (Value.vNum 1)),
              ("Discount", some (Value.vNum (1/10)))]] }

/-- A database-origin Customers table with the single customer `A`. -/
def egCustomers : DF :=
  { cols := ["CustomerID", "CompanyName", "City", "Country", "Phone"],
    rows := [[("CustomerID", some (Value.vStr "A")),
              ("CompanyName", some (Value.vStr "Acme")),
              ("City", some (Value.vStr "Lille")),
              ("Country", some (Value.vStr "France")),
              ("Phone", some (Value.vStr "111"))]] }

/-- A database-origin Products table with the two referenced products. -/
def egProducts : DF :=
  { cols := ["ProductID", "ProductName", "UnitPrice", "CategoryID", "Discontinued"],
    rows := [[("ProductID", some (Value.vNum 11)),
              ("ProductName", some (Value.vStr "Tea")),
              ("UnitPrice", some (Value.vNum 10)),
              ("CategoryID", some (Value.vNum 1)),
              ("Discontinued", some (Value.vBool false))],
             [("ProductID", some (Value.vNum 12)),
              ("ProductName", some (Value.vStr "Chai")),
              ("UnitPrice", some (Value.vNum 5)),
              ("CategoryID", some (Value.vNum 1)),
              ("Discontinued", some (Value.vBool false))]] }

/-- A database-origin Employees table with the single employee 7. -/
def egEmployees : DF :=
  { cols := ["EmployeeID", "FirstName", "LastName", "Title", "City", "Country"],
    rows := [[("EmployeeID", some (Value.vNum 7)),
              ("FirstName", some (Value.vStr "Jane")),
              ("LastName", some (Value.vStr "Doe")),
              ("Title", some (Value.vStr "Rep")),
              ("City", some (Value.vStr "Lyon")),
              ("Country", some (Value.vStr "France"))]] }

/-- A database-origin Shippers table with the single shipper 2. -/
def egShippers : DF :=
  { cols := ["ShipperID", "CompanyName", "Phone"],
    rows := [[("ShipperID", some (Value.vNum 2)),
              ("CompanyName", some (Value.vStr "Speedy")),
              ("Phone", some (Value.vStr "222"))]] }

/-- A database-origin Categories table with the single category 1. -/
def egCategories : DF :=
  { cols := ["CategoryID", "CategoryName"],
    rows := [[("CategoryID", some (Value.vNum 1)),
              ("CategoryName", some (Value.vStr "Drinks"))]] }

/-- A complete, consistent pipeline input: every table present on the
database side only. -/
def egSrc : SourceInputs :=
  { ordersX := none, ordersS := some egOrders,
    orderDetX := none, orderDetS := some egDetails,
    customersX := none, customersS := some egCustomers,
    productsX := none, productsS := some egProducts,
    employeesX := none, employeesS := some egEmployees,
    shippersX := none, shippersS := some egShippers,
    categoriesX := none, categoriesS := some egCategories }

/-- The column set of the concatenation built by the reconciler (the
order-identifier shift never changes columns). -/
def mergedCols (dfx dfs : Option DF) : List String :=
  match dfx, dfs with
  | none, none => []
  | some d, none => d.cols
  | none, some d => d.cols
  | some a, some b => colUnion a.cols b.cols

/-- The referential-completeness property claimed of a produced schema:
every fact TimeKey appears in the Time dimension, every fact CustomerKey
matches some Customer dimension key (compared in the string form in which
the fact table carries it), and every non-null EmployeeKey / ShipperKey
value appears in its dimension. -/
def fkResolved (s : StarSchema) : Bool :=
  s.fact_sales.rows.all (fun r =>
    (s.dim_time.rows.any (fun tr => tr.getV "TimeKey" = r.getV "TimeKey")) &&
    (s.dim_customer.rows.any (fun cr =>
      pyStr (cr.getV "CustomerKey") = pyStr (r.getV "CustomerKey"))) &&
    (match r.getV "EmployeeKey" with
     | none => true
     | some v => s.dim_employee.rows.any (fun er => er.getV "EmployeeKey" = some v)) &&
    (match r.getV "ShipperKey" with
     | none => true
     | some v => s.dim_shipper.rows.any (fun sr => sr.getV "ShipperKey" = some v)))

/-- The row-level view of the measure coercions of lines 247 to 249:
`Discount`, `Quantity`, `UnitPrice` coerced to numeric with null mapped to
zero. -/
def detailCoerced (r : Row) : Row :=
  applyCol "UnitPrice" (fun v => some (Value.vNum ((toNumeric v).getD 0)))
    (applyCol "Quantity" (fun v => some (Value.vNum ((toNumeric v).getD 0)))
      (applyCol "Discount" (fun v => some (Value.vNum ((toNumeric v).getD 0))) r))

/-- The row-level view of the full Order Details normalisation of lines
247 to 251: the coercions, the per-row LineTotal and the constant
DetailCount column. -/
def detailRowF (r : Row) : Row :=
  applyRow "DetailCount" (fun _ => some (Value.vNum 1))
    (applyRow "LineTotal" (fun r2 =>
      some (Value.vNum (numCell (r2.getV "UnitPrice") * numCell (r2.getV "Quantity") *
        (1 - numCell (r2.getV "Discount")))))
      (detailCoerced r))

/-- The single joined row that the fact left-join produces for one order
row, given that the aggregate has pairwise distinct order identifiers. -/
def joinDetail (ds : DF) (er : Row) : Row :=
  match ds.rows.find? (fun rr => rr.getV "OrderID" = er.getV "OrderID") with
  | some rr =>
    er ++ (ds.cols.filter (fun c => c ≠ "OrderID")).map (fun c => (c, rr.getV c))
  | none =>
    er ++ (ds.cols.filter (fun c => c ≠ "OrderID")).map (fun c => (c, (none : Option Value)))

/-- The row-level view of the fact builder: the image of one reconciled
order row through the join and the column transformations of lines 263 to
290, in source order. -/
def factRowF (ds : DF) (lr : Row) : Row :=
  applyCol "ShipperKey" (fun v =>
    (toNumeric v).map (fun q => Value.vNum ((q.num : ℤ) : ℚ)))
    (applyCol "EmployeeKey" (fun v =>
      (toNumeric v).map (fun q => Value.vNum ((q.num : ℤ) : ℚ)))
      (applyCol "CustomerKey" (fun v => some (Value.vStr (pyStrip (pyStr v))))
        (Row.renameCols factRename
          (applyCol "Freight" (fun v => some (Value.vNum ((toNumeric v).getD 0)))
            (applyCol "TotalLineTotal" (fun v => some (Value.vNum ((toNumeric v).getD 0)))
              (applyCol "AverageDiscount" (fun v => some (Value.vNum ((toNumeric v).getD 0)))
                (applyCol "TotalQuantity" (fun v => some (Value.vNum ((toNumeric v).getD 0)))
                  (applyCol "DetailCount" (fun v =>
                    some (Value.vNum ((ratTrunc ((toNumeric v).getD 0) : ℤ) : ℚ)))
                    (applyRow "TimeKey" (fun r =>
                      some (Value.vNum ((((toDatetime (r.getV "OrderDate")).getD
                        defaultDate).timeKey : ℤ) : ℚ)))
                      (applyCol "OrderDate" (fun v =>
                        some (Value.vDate ((toDatetime v).getD defaultDate)))
                        (joinDetail ds (lr.eraseCol "_source"))))))))))))

/-- The orders table of `egSrc` with a customer identifier that no row of
the Customers table carries. -/
def c1Orders : DF :=
  { cols := egOrders.cols,
    rows := [[("OrderID", some (Value.vNum 1)),
              ("CustomerID", some (Value.vStr "B")),
              ("EmployeeID", some (Value.vNum 7)),
              ("ShipVia", some (Value.vNum 2)),
              ("Freight", some (Value.vNum 10)),
              ("OrderDate", some (Value.vDate { year := 1996, month := 7, day := 4, tod := 0 }))]] }

/-- `egSrc` with the orphan-customer orders table. -/
def c1Src : SourceInputs :=
  { egSrc with ordersS := some c1Orders }

/-- An orders table with two orders on the same calendar date at different
times of day. -/
def c2Orders : DF :=
  { cols := egOrders.cols,
    rows := [[("OrderID", some (Value.vNum 1)),
              ("CustomerID", some (Value.vStr "A")),
              ("EmployeeID", some (Value.vNum 7)),
              ("ShipVia", some (Value.vNum 2)),
              ("Freight", some (Value.vNum 10)),
              ("OrderDate", some (Value.vDate { year := 1996, month := 7, day := 4, tod := 0 }))],
             [("OrderID", some (Value.vNum 2)),
              ("CustomerID", some (Value.vStr "A")),
              ("EmployeeID", some (Value.vNum 7)),
              ("ShipVia", some (Value.vNum 2)),
              ("Freight", some (Value.vNum 10)),
              ("OrderDate", some (Value.vDate { year := 1996, month := 7, day := 4, tod := 3600 }))]] }

/-- `egSrc` with the two-timestamps-one-date orders table. -/
def c2Src : SourceInputs :=
  { egSrc with ordersS := some c2Orders }

/-- A single-origin Customers table with a duplicated key and a null key. -/
def c3Customers : DF :=
  { cols := ["CustomerID", "CompanyName"],
    rows := [[("CustomerID", some (Value.vStr "A")), ("CompanyName", some (Value.vStr "X"))],
             [("CustomerID", some (Value.vStr "A")), ("CompanyName", some (Value.vStr "Y"))],
             [("CustomerID", none), ("CompanyName", some (Value.vStr "Z"))]] }

/-- A single-origin spreadsheet Customers table with a duplicated key and
a null key, exercising the dedup path. -/
def c4Customers : DF :=
  { cols := ["CustomerID", "CompanyName"],
    rows := [[("CustomerID", some (Value.vStr "A")), ("CompanyName", some (Value.vStr "X"))],
             [("CustomerID", some (Value.vStr "A")), ("CompanyName", some (Value.vStr "Y"))],
             [("CustomerID", none), ("CompanyName", some (Value.vStr "Z"))]] }

/-- The reconciled table expected for `c4Customers` with dedup on: only
the first `A` row survives. -/
def c4Out : DF :=
  { cols := ["CustomerID", "CompanyName"],
    rows := [[("CustomerID", some (Value.vStr "A")), ("CompanyName", some (Value.vStr "X"))]] }

/-- A one-row spreadsheet Orders table whose order identifier is negative. -/
def c5Excel : DF :=
  { cols := ["OrderID"], rows := [[("OrderID", some (Value.vNum (-1)))]] }

/-- A one-row database Orders table. -/
def c5Sql : DF :=
  { cols := ["OrderID"], rows := [[("OrderID", some (Value.vNum 1))]] }

/-- The spreadsheet Orders table of the specification scenario: order id 5
with no database counterpart. -/
def c5Excel5 : DF :=
  { cols := ["OrderID"], rows := [[("OrderID", some (Value.vNum 5))]] }

/-- A spreadsheet Customers table that lacks its declared key column. -/
def c8Customers : DF :=
  { cols := ["Name"], rows := [[("Name", some (Value.vStr "x"))]] }

/-- `egSrc` with both Customers origins absent. -/
def c9Src : SourceInputs :=
  { egSrc with customersS := none, customersX := none }

/-- A Customers table whose (non-null) key is the literal text `nan`. -/
def c10Customers : DF :=
  { cols := egCustomers.cols,
    rows := [[("CustomerID", some (Value.vStr "nan")),
              ("CompanyName", some (Value.vStr "Acme")),
              ("City", some (Value.vStr "Lille")),
              ("Country", some (Value.vStr "France")),
              ("Phone", some (Value.vStr "111"))]] }

/-- An orders table whose customer identifier is null. -/
def c10Orders : DF :=
  { cols := egOrders.cols,
    rows := [[("OrderID", some (Value.vNum 1)),
              ("CustomerID", none),
              ("EmployeeID", some (Value.vNum 7)),
              ("ShipVia", some (Value.vNum 2)),
              ("Freight", some (Value.vNum 10)),
              ("OrderDate", some (Value.vDate { year := 1996, month := 7, day := 4, tod := 0 }))]] }

/-- `egSrc` with the null-customer orders table and the `nan`-keyed
Customers table. -/
def c10Src : SourceInputs :=
  { egSrc with ordersS := some c10Orders, customersS := some c10Customers }

/-- An Orders table whose second order (id 2) has no matching detail
row. -/
def c7Orders : DF :=
  { cols := ["OrderID", "CustomerID", "EmployeeID", "ShipVia", "Freight", "OrderDate"],
    rows := [[("OrderID", some (Value.vNum 1)),
              ("CustomerID", some (Value.vStr "A")),
              ("EmployeeID", some (Value.vNum 7)),
              ("ShipVia", some (Value.vNum 2)),
              ("Freight", some (Value.vNum 10)),
              ("OrderDate", some (Value.vDate { year := 1996, month := 7, day := 4, tod := 0 }))],
             [("OrderID", some (Value.vNum 2)),
              ("CustomerID", some (Value.vStr "B")),
              ("EmployeeID", some (Value.vNum 3)),
              ("ShipVia", some (Value.vNum 1)),
              ("Freight", some (Value.vNum 5)),
              ("OrderDate", some (Value.vDate { year := 1996, month := 7, day := 5, tod := 0 }))]] }

/-- An Order Details table with a single detail row, for order 1 only. -/
def c7Details : DF :=
  { cols := ["OrderID", "ProductID", "UnitPrice", "Quantity", "Discount"],
    rows := [[("OrderID", some (Value.vNum 1)),
              ("ProductID", some (Value.vNum 11)),
              ("UnitPrice", some (Value.vNum 10)),
              ("Quantity", some (Value.vNum 2)),
              ("Discount", some (Value.vNum 0))]] }

/-! General lemmas about the modelled pandas primitives. -/

theorem mem_of_mem_dedupByGo {β α : Type} [DecidableEq α] (f : β → α)
    (seen : List α) (l : List β) (x : β) (hx : x ∈ dedupByGo f seen l) : x ∈ l := by
  induction l generalizing seen with
  | nil => simp [dedupByGo] at hx
  | cons a as ih =>
    by_cases h : f a ∈ seen
    · simp only [dedupByGo, if_pos h] at hx
      exact List.mem_cons_of_mem _ (ih _ hx)
    · simp only [dedupByGo, if_neg h, List.mem_cons] at hx
      rcases hx with rfl | hx
      · exact List.mem_cons_self _ _
      · exact List.mem_cons_of_mem _ (ih _ hx)

theorem not_seen_of_mem_dedupByGo {β α : Type} [DecidableEq α] (f : β → α)
    (seen : List α) (l : List β) (x : β) (hx : x ∈ dedupByGo f seen l) : f x ∉ seen := by
  induction l generalizing seen with
  | nil => simp [dedupByGo] at hx
  | cons a as ih =>
    by_cases h : f a ∈ seen
    · simp only [dedupByGo, if_pos h] at hx
      exact ih _ hx
    · simp only [dedupByGo, if_neg h, List.mem_cons] at hx
      rcases hx with rfl | hx
      · exact h
      · intro hc
        exact ih _ hx (List.mem_cons_of_mem _ hc)

theorem nodup_map_dedupByGo {β α : Type} [DecidableEq α] (f : β → α)
    (seen : List α) (l : List β) : ((dedupByGo f seen l).map f).Nodup := by
  induction l generalizing seen with
  | nil => simp [dedupByGo]
  | cons a as ih =>
    by_cases h : f a ∈ seen
    · simpa only [dedupByGo, if_pos h] using ih seen
    · simp only [dedupByGo, if_neg h, List.map_cons, List.nodup_cons]
      refine ⟨?_, ih _⟩
      intro hmem
      rcases List.mem_map.mp hmem with ⟨x, hx, hfx⟩
      exact not_seen_of_mem_dedupByGo f _ _ x hx (by simp [hfx])

theorem exists_mem_dedupByGo {β α : Type} [DecidableEq α] (f : β → α)
    (seen : List α) (l : List β) (b : β) (hb : b ∈ l) (hs : f b ∉ seen) :
    ∃ c ∈ dedupByGo f seen l, f c = f b := by
  induction l generalizing seen with
  | nil => simp at hb
  | cons a as ih =>
    by_cases h : f a ∈ seen
    · rcases List.mem_cons.mp hb with rfl | hb2
      · exact absurd h hs
      · simp only [dedupByGo, if_pos h]
        exact ih _ hb2 hs
    · by_cases hab : f b = f a
      · refine ⟨a, ?_, hab.symm⟩
        simp [dedupByGo, if_neg h]
      · rcases List.mem_cons.mp hb with rfl | hb2
        · exact absurd rfl hab
        · have hs2 : f b ∉ f a :: seen := by
            simp only [List.mem_cons]
            rintro (hc | hc)
            · exact hab hc
            · exact hs hc
          rcases ih (f a :: seen) hb2 hs2 with ⟨c, hc, hfc⟩
          refine ⟨c, ?_, hfc⟩
          simp only [dedupByGo, if_neg h, List.mem_cons]
          exact Or.inr hc

theorem find_first_of_mem_dedupByGo {β α : Type} [DecidableEq α] (f : β → α)
    (seen : List α) (l : List β) (x : β) (hx : x ∈ dedupByGo f seen l) :
    l.find? (fun y => f y = f x) = some x := by
  induction l generalizing seen with
  | nil => simp [dedupByGo] at hx
  | cons a as ih =>
    by_cases h : f a ∈ seen
    · simp only [dedupByGo, if_pos h] at hx
      have hne : f a ≠ f x := by
        intro hc
        exact not_seen_of_mem_dedupByGo f _ _ x hx (hc ▸ h)
      simp only [List.find?, decide_eq_false hne]
      exact ih _ hx
    · simp only [dedupByGo, if_neg h, List.mem_cons] at hx
      rcases hx with rfl | hx
      · simp [List.find?]
      · have hns : f x ∉ f a :: seen := not_seen_of_mem_dedupByGo f _ _ x hx
        have hne : f a ≠ f x := by
          intro hc
          exact hns (by simp [hc])
        simp only [List.find?, decide_eq_false hne]
        exact ih _ hx

theorem mem_of_mem_dedupBy {β α : Type} [DecidableEq α] (f : β → α)
    (l : List β) (x : β) (hx : x ∈ dedupBy f l) : x ∈ l :=
  mem_of_mem_dedupByGo f [] l x hx

theorem nodup_map_dedupBy {β α : Type} [DecidableEq α] (f : β → α)
    (l : List β) : ((dedupBy f l).map f).Nodup :=
  nodup_map_dedupByGo f [] l

theorem exists_mem_dedupBy {β α : Type} [DecidableEq α] (f : β → α)
    (l : List β) (b : β) (hb : b ∈ l) : ∃ c ∈ dedupBy f l, f c = f b :=
  exists_mem_dedupByGo f [] l b hb (by simp)

theorem find_first_of_mem_dedupBy {β α : Type} [DecidableEq α] (f : β → α)
    (l : List β) (x : β) (hx : x ∈ dedupBy f l) :
    l.find? (fun y => f y = f x) = some x :=
  find_first_of_mem_dedupByGo f [] l x hx

theorem sum_ones_eq_length {β : Type} (l : List β) :
    (l.map (fun _ => (1 : ℚ))).sum = (l.length : ℚ) := by
  induction l with
  | nil => simp
  | cons a as ih =>
    simp [ih]
    ring

theorem forall_of_map_eq {α β : Type} (f g : α → β) (l : List α)
    (h : l.map f = l.map g) : ∀ x ∈ l, f x = g x := by
  induction l with
  | nil => simp
  | cons a as ih =>
    simp only [List.map_cons, List.cons.injEq] at h
    intro x hx
    rcases List.mem_cons.mp hx with rfl | hx2
    · exact h.1
    · exact ih h.2 x hx2

theorem filter_eq_find_toList {β α : Type} [DecidableEq α] (f : β → α) (k : α) (l : List β)
    (h : (l.map f).Nodup) :
    l.filter (fun x => f x = k) = (l.find? (fun x => f x = k)).toList := by
  induction l with
  | nil => simp
  | cons a as ih =>
    simp only [List.map_cons, List.nodup_cons] at h
    by_cases ha : f a = k
    · have htail : as.filter (fun x => decide (f x = k)) = [] := by
        apply List.filter_eq_nil_iff.mpr
        intro x hx
        simp only [decide_eq_true_eq]
        intro hc
        exact h.1 (List.mem_map.mpr ⟨x, hx, by rw [hc, ha]⟩)
      simp only [List.filter_cons, List.find?, decide_eq_true (p := f a = k) ha, if_true,
        htail, Option.toList]
    · simp only [List.filter_cons, List.find?, decide_eq_false (p := f a = k) ha,
        Bool.false_eq_true, if_false]
      exact ih h.2

theorem flatMap_eq_map {α β : Type} (g : α → List β) (f : α → β) (l : List α)
    (hs : ∀ a ∈ l, g a = [f a]) : l.flatMap g = l.map f := by
  induction l with
  | nil => simp
  | cons a as ih =>
    simp only [List.flatMap_cons, List.map_cons, hs a (List.mem_cons_self _ _)]
    rw [ih (fun x hx => hs x (List.mem_cons_of_mem _ hx))]
    rfl

theorem Row.getV_cons (k : String) (v : Option Value) (ps : Row) (c : String) :
    Row.getV ((k, v) :: ps) c = if k = c then v else Row.getV ps c := by
  by_cases h : k = c
  · have hb : (c == k) = true := by simp [h]
    simp [Row.getV, List.lookup_cons, hb, h]
  · have hb : (c == k) = false := by simp; exact fun hc => h hc.symm
    simp [Row.getV, List.lookup_cons, hb, h]

theorem Row.lookup_eq_none_of_forall (r : Row) (c : String)
    (h : ∀ p ∈ r, p.1 ≠ c) : List.lookup c r = none := by
  induction r with
  | nil => simp
  | cons p ps ih =>
    have hb : (c == p.1) = false := by
      simp
      exact fun hc => (h p (List.mem_cons_self _ _)) hc.symm
    obtain ⟨k, w⟩ := p
    rw [List.lookup_cons]
    simp only at hb
    rw [hb]
    exact ih (fun q hq => h q (List.mem_cons_of_mem _ hq))

theorem Row.getV_map_subst_same (r : Row) (c : String) (v : Option Value)
    (ha : ∃ p ∈ r, p.1 = c) :
    Row.getV (r.map (fun p => if p.1 = c then (c, v) else p)) c = v := by
  induction r with
  | nil => simp at ha
  | cons p ps ih =>
    by_cases hp : p.1 = c
    · simp only [List.map_cons, if_pos hp]
      rw [Row.getV_cons]
      simp
    · simp only [List.map_cons, if_neg hp]
      obtain ⟨k, w⟩ := p
      rw [Row.getV_cons]
      simp only at hp
      rw [if_neg hp]
      rcases ha with ⟨q, hq, hqc⟩
      rcases List.mem_cons.mp hq with rfl | hq2
      · exact absurd hqc hp
      · exact ih ⟨q, hq2, hqc⟩

theorem Row.getV_map_subst_other (r : Row) (c c2 : String) (v : Option Value)
    (hne : c2 ≠ c) :
    Row.getV (r.map (fun p => if p.1 = c then (c, v) else p)) c2 = Row.getV r c2 := by
  induction r with
  | nil => simp
  | cons p ps ih =>
    obtain ⟨k, w⟩ := p
    by_cases hp : k = c
    · simp only [List.map_cons, if_pos (show (k, w).1 = c from hp)]
      rw [Row.getV_cons, Row.getV_cons]
      rw [if_neg (Ne.symm hne), if_neg (by rw [hp]; exact Ne.symm hne)]
      exact ih
    · simp only [List.map_cons, if_neg (show ¬ (k, w).1 = c from hp)]
      rw [Row.getV_cons, Row.getV_cons]
      by_cases hk : k = c2
      · simp [hk]
      · rw [if_neg hk, if_neg hk]
        exact ih

theorem Row.getV_append (r s : Row) (c : String) :
    Row.getV (r ++ s) c =
      match List.lookup c r with
      | some v => v
      | none => s.getV c := by
  induction r with
  | nil => simp [Row.getV]
  | cons p ps ih =>
    obtain ⟨k, w⟩ := p
    by_cases hp : k = c
    · have hb : (c == k) = true := by simp [hp]
      rw [List.cons_append, Row.getV_cons, if_pos hp, List.lookup_cons]
      simp only at hb
      rw [hb]
    · have hb : (c == k) = false := by
        simp
        exact fun hc => hp hc.symm
      rw [List.cons_append, Row.getV_cons, if_neg hp, List.lookup_cons]
      simp only at hb
      rw [hb]
      exact ih

theorem Row.getV_setV_same (r : Row) (c : String) (v : Option Value) :
    (r.setV c v).getV c = v := by
  unfold Row.setV
  by_cases ha : r.any (fun p => decide (p.1 = c)) = true
  · rw [if_pos ha]
    rcases List.any_eq_true.mp ha with ⟨p, hp, hpc⟩
    exact Row.getV_map_subst_same r c v ⟨p, hp, of_decide_eq_true hpc⟩
  · rw [if_neg ha]
    have hnone : List.lookup c r = none := by
      apply Row.lookup_eq_none_of_forall
      intro p hp hpc
      exact ha (List.any_eq_true.mpr ⟨p, hp, decide_eq_true hpc⟩)
    rw [Row.getV_append, hnone]
    rw [Row.getV_cons]
    simp

theorem Row.getV_setV_other (r : Row) (c c2 : String) (v : Option Value)
    (hne : c2 ≠ c) : (r.setV c v).getV c2 = r.getV c2 := by
  unfold Row.setV
  by_cases ha : r.any (fun p => decide (p.1 = c)) = true
  · rw [if_pos ha]
    exact Row.getV_map_subst_other r c c2 v hne
  · rw [if_neg ha]
    rw [Row.getV_append]
    cases hl : List.lookup c2 r with
    | some w => simp [Row.getV, hl]
    | none =>
      rw [Row.getV_cons, if_neg (Ne.symm hne)]
      simp [Row.getV, hl]

theorem Row.getV_eraseCol (r : Row) (c c2 : String) (hne : c2 ≠ c) :
    (r.eraseCol c).getV c2 = r.getV c2 := by
  induction r with
  | nil => simp [Row.eraseCol]
  | cons p ps ih =>
    obtain ⟨k, w⟩ := p
    by_cases hp : k = c
    · have : ¬ k = c2 := by rw [hp]; exact Ne.symm hne
      simp only [Row.eraseCol, List.filter_cons]
      rw [show (decide ¬ (k, w).1 = c) = false by simp [hp]]
      simp only [Bool.false_eq_true, if_false]
      rw [Row.getV_cons, if_neg this]
      exact ih
    · simp only [Row.eraseCol, List.filter_cons]
      rw [show (decide ¬ (k, w).1 = c) = true by simp [hp]]
      simp only [if_true]
      rw [Row.getV_cons, Row.getV_cons]
      by_cases hk : k = c2
      · simp [hk]
      · rw [if_neg hk, if_neg hk]
        exact ih

theorem Row.getV_reindexed (cs : List String) (g : String → Option Value) (c : String) :
    Row.getV (cs.map (fun c2 => (c2, g c2))) c = if c ∈ cs then g c else none := by
  induction cs with
  | nil => simp [Row.getV]
  | cons a as ih =>
    simp only [List.map_cons]
    rw [Row.getV_cons]
    by_cases ha : a = c
    · simp [ha]
    · rw [if_neg ha, ih]
      by_cases hc : c ∈ as
      · simp [hc]
      · have hca : ¬ (c = a) := fun h => ha h.symm
        simp [hc, hca]

theorem Row.getV_renameCols (m : List (String × String)) (src dst : String)
    (hm : m.lookup src = some dst) (r : Row)
    (hbind : ∀ p ∈ r, (match m.lookup p.1 with
      | some d => d = dst
      | none => p.1 = dst) → p.1 = src) :
    (Row.renameCols m r).getV dst = r.getV src := by
  induction r with
  | nil => simp [Row.renameCols, Row.getV]
  | cons p ps ih =>
    obtain ⟨k, w⟩ := p
    simp only [Row.renameCols, List.map_cons]
    cases hl : List.lookup k m with
    | some d =>
      simp only [hl]
      by_cases hp : k = src
      · have hd : d = dst := by
          rw [hp] at hl
          rw [hl] at hm
          exact Option.some.inj hm
        rw [Row.getV_cons, if_pos hd, Row.getV_cons, if_pos hp]
      · have hnd : d ≠ dst := by
          intro hc
          exact hp (hbind (k, w) (List.mem_cons_self _ _) (by simp only; rw [hl]; exact hc))
        rw [Row.getV_cons, if_neg hnd, Row.getV_cons, if_neg hp]
        exact ih (fun p2 hp2 => hbind p2 (List.mem_cons_of_mem _ hp2))
    | none =>
      simp only [hl]
      by_cases hp : k = src
      · exfalso
        rw [hp] at hl
        rw [hl] at hm
        exact Option.noConfusion hm
      · have hnd : k ≠ dst := by
          intro hc
          exact hp (hbind (k, w) (List.mem_cons_self _ _) (by simp only; rw [hl]; exact hc))
        rw [Row.getV_cons, if_neg hnd, Row.getV_cons, if_neg hp]
        exact ih (fun p2 hp2 => hbind p2 (List.mem_cons_of_mem _ hp2))

theorem Row.getV_renameCols_self (m : List (String × String)) (c : String) (r : Row)
    (hmc : m.lookup c = none)
    (hb : ∀ p ∈ r, ∀ d, m.lookup p.1 = some d → d ≠ c) :
    (Row.renameCols m r).getV c = r.getV c := by
  induction r with
  | nil => simp [Row.renameCols, Row.getV]
  | cons p ps ih =>
    obtain ⟨k, w⟩ := p
    simp only [Row.renameCols, List.map_cons]
    cases hl : List.lookup k m with
    | some d =>
      simp only [hl]
      have hkc : k ≠ c := by
        intro hc
        rw [hc, hmc] at hl
        exact Option.noConfusion hl
      have hnd : d ≠ c := hb (k, w) (List.mem_cons_self _ _) d hl
      rw [Row.getV_cons, if_neg hnd, Row.getV_cons, if_neg hkc]
      exact ih (fun p2 hp2 => hb p2 (List.mem_cons_of_mem _ hp2))
    | none =>
      simp only [hl]
      rw [Row.getV_cons, Row.getV_cons]
      by_cases hk : k = c
      · rw [if_pos hk, if_pos hk]
      · rw [if_neg hk, if_neg hk]
        exact ih (fun p2 hp2 => hb p2 (List.mem_cons_of_mem _ hp2))

theorem keyOf_eraseCol (subset : List String) (r : Row) (hs : "_source" ∉ subset) :
    keyOf subset (r.eraseCol "_source") = keyOf subset r := by
  unfold keyOf
  apply List.map_congr_left
  intro c hc
  exact Row.getV_eraseCol r "_source" c (fun h => hs (h ▸ hc))

theorem Row.any_setV (r : Row) (c : String) (v : Option Value) :
    ((r.setV c v).any (fun p => p.1 = c)) = true := by
  unfold Row.setV
  by_cases ha : r.any (fun p => decide (p.1 = c)) = true
  · rw [if_pos ha]
    rcases List.any_eq_true.mp ha with ⟨p, hp, hpc⟩
    refine List.any_eq_true.mpr ⟨(c, v), ?_, by simp⟩
    refine List.mem_map.mpr ⟨p, hp, ?_⟩
    rw [if_pos (of_decide_eq_true hpc)]
  · rw [if_neg ha]
    exact List.any_eq_true.mpr ⟨(c, v), by simp, by simp⟩

theorem Row.setV_setV_same (r : Row) (c : String) (v w : Option Value) :
    (r.setV c v).setV c w = r.setV c w := by
  by_cases ha : r.any (fun p => decide (p.1 = c)) = true
  · have h1 : r.setV c v = r.map (fun p => if p.1 = c then (c, v) else p) := by
      unfold Row.setV
      rw [if_pos ha]
    have h2 : r.setV c w = r.map (fun p => if p.1 = c then (c, w) else p) := by
      unfold Row.setV
      rw [if_pos ha]
    have h3 := Row.any_setV r c v
    rw [h1] at h3
    have h4 : Row.setV (r.map (fun p => if p.1 = c then (c, v) else p)) c w =
        (r.map (fun p => if p.1 = c then (c, v) else p)).map
          (fun p => if p.1 = c then (c, w) else p) := by
      unfold Row.setV
      rw [if_pos h3]
    rw [h1, h4, h2, List.map_map]
    apply List.map_congr_left
    intro p _
    by_cases hp : p.1 = c
    · simp [hp]
    · simp [hp]
  · have h1 : r.setV c v = r ++ [(c, v)] := by
      unfold Row.setV
      rw [if_neg ha]
    have h2 : r.setV c w = r ++ [(c, w)] := by
      unfold Row.setV
      rw [if_neg ha]
    have h3 := Row.any_setV r c v
    rw [h1] at h3
    have h4 : Row.setV (r ++ [(c, v)]) c w =
        ((r ++ [(c, v)] : Row)).map (fun p => if p.1 = c then (c, w) else p) := by
      unfold Row.setV
      rw [if_pos h3]
    rw [h1, h4, h2, List.map_append]
    have hid : ∀ p ∈ r, (if p.1 = c then ((c, w) : String × Option Value) else p) = p := by
      intro p hp
      have hne : ¬ (p.1 = c) := by
        intro hc
        exact ha (List.any_eq_true.mpr ⟨p, hp, decide_eq_true hc⟩)
      rw [if_neg hne]
    rw [List.map_congr_left hid]
    simp

theorem adjust_excel_ids_not_order (table : String) (df : DF)
    (h : ¬ (normTableName table = "orders" ∨ normTableName table = "order details")) :
    adjust_excel_ids table df = Except.ok df := by
  unfold adjust_excel_ids
  rw [if_neg h]

theorem adjust_excel_ids_missing (table : String) (df : DF)
    (h : normTableName table = "orders" ∨ normTableName table = "order details")
    (hcol : "OrderID" ∉ df.cols) :
    adjust_excel_ids table df = Except.error (EtlError.keyError
      ("Colonne OrderID introuvable dans le fichier Excel pour la table " ++ table)) := by
  unfold adjust_excel_ids
  rw [if_pos h, if_neg hcol]

theorem adjust_shift_aux (l : List Row) :
    ((l.map (fun r => r.setV "OrderID" ((toNumeric (r.getV "OrderID")).map Value.vNum))).filter
        (fun r => (r.getV "OrderID").isSome)).map
      (fun r => r.setV "OrderID" (match toNumeric (r.getV "OrderID") with
        | some q => some (Value.vNum ((ratTrunc q + EXCEL_ORDER_OFFSET : ℤ) : ℚ))
        | none => none)) = l.filterMap shiftRow := by
  induction l with
  | nil => rfl
  | cons r l ih =>
    simp only [List.map_cons, List.filter_cons, List.filterMap_cons]
    cases hq : toNumeric (r.getV "OrderID") with
    | none =>
      simp only [shiftRow, hq, Option.map_none']
      have hget : Row.getV (Row.setV r "OrderID" none) "OrderID" = none :=
        Row.getV_setV_same r "OrderID" none
      simp only [hget, Option.isSome_none, Bool.false_eq_true, if_false]
      exact ih
    | some q =>
      simp only [shiftRow, hq, Option.map_some']
      have hget : Row.getV (Row.setV r "OrderID" (some (Value.vNum q))) "OrderID" =
          some (Value.vNum q) :=
        Row.getV_setV_same r "OrderID" (some (Value.vNum q))
      simp only [hget, Option.isSome_some, if_true, List.map_cons,
        show toNumeric (some (Value.vNum q)) = some q from rfl,
        Row.setV_setV_same]
      exact congrArg _ ih

theorem adjust_excel_ids_order (table : String) (df : DF)
    (h : normTableName table = "orders" ∨ normTableName table = "order details")
    (hcol : "OrderID" ∈ df.cols) :
    adjust_excel_ids table df =
      Except.ok { cols := df.cols, rows := df.rows.filterMap shiftRow } := by
  unfold adjust_excel_ids
  rw [if_pos h, if_pos hcol]
  exact congrArg
    (fun rs => (Except.ok { cols := df.cols, rows := rs } : Except EtlError DF))
    (adjust_shift_aux df.rows)

theorem adjust_excel_ids_cols (table : String) (df df2 : DF)
    (h : adjust_excel_ids table df = Except.ok df2) : df2.cols = df.cols := by
  by_cases ho : normTableName table = "orders" ∨ normTableName table = "order details"
  · by_cases hcol : "OrderID" ∈ df.cols
    · rw [adjust_excel_ids_order table df ho hcol] at h
      cases h
      rfl
    · rw [adjust_excel_ids_missing table df ho hcol] at h
      cases h
  · rw [adjust_excel_ids_not_order table df ho] at h
    cases h
    rfl

theorem combinedTable_no_excel (table : String) (dfs : Option DF) :
    combinedTable table none dfs = Except.ok dfs := by
  cases dfs <;> rfl

theorem combinedTable_excel_ok (table : String) (dx adj : DF) (dfs : Option DF)
    (h : adjust_excel_ids table dx = Except.ok adj) :
    combinedTable table (some dx) dfs =
      Except.ok (some (match dfs with
        | none => adj
        | some ds => adj.concat ds)) := by
  cases dfs <;> simp only [combinedTable, h, Except.map] <;> rfl

theorem combinedTable_excel_error (table : String) (dx : DF) (dfs : Option DF) (e : EtlError)
    (h : adjust_excel_ids table dx = Except.error e) :
    combinedTable table (some dx) dfs = Except.error e := by
  cases dfs <;> simp only [combinedTable, h, Except.map] <;> rfl

theorem merge_sources_of_combined_none (table : String) (key : List String) (dedupe : Bool)
    (dfx dfs : Option DF) (h : combinedTable table dfx dfs = Except.ok none) :
    merge_sources table key dedupe dfx dfs = Except.ok none := by
  simp only [merge_sources, h]
  rfl

theorem merge_sources_of_combined_error (table : String) (key : List String) (dedupe : Bool)
    (dfx dfs : Option DF) (e : EtlError) (h : combinedTable table dfx dfs = Except.error e) :
    merge_sources table key dedupe dfx dfs = Except.error e := by
  simp only [merge_sources, h]
  rfl

theorem merge_sources_nodedupe (table : String) (key : List String)
    (dfx dfs : Option DF) (df : DF) (h : combinedTable table dfx dfs = Except.ok (some df)) :
    merge_sources table key false dfx dfs = Except.ok (some df) := by
  simp only [merge_sources, h]
  rfl

theorem merge_sources_dedupe_ok (table : String) (key : List String)
    (dfx dfs : Option DF) (df : DF) (h : combinedTable table dfx dfs = Except.ok (some df))
    (hall : key.all (fun c => decide (c ∈ df.cols)) = true) :
    merge_sources table key true dfx dfs =
      Except.ok (some (((df.dropDuplicates key).dropna key).dropCol "_source")) := by
  simp only [merge_sources, h]
  show Except.bind (Except.ok (some df)) _ = _
  simp only [Except.bind, if_true]
  rw [if_pos hall]
  rfl

theorem merge_sources_dedupe_badkey (table : String) (key : List String)
    (dfx dfs : Option DF) (df : DF) (h : combinedTable table dfx dfs = Except.ok (some df))
    (hall : ¬ (key.all (fun c => decide (c ∈ df.cols)) = true)) :
    merge_sources table key true dfx dfs =
      Except.error (EtlError.keyError "key column not found in merged frame") := by
  simp only [merge_sources, h]
  show Except.bind (Except.ok (some df)) _ = _
  simp only [Except.bind, if_true]
  rw [if_neg hall]

/-! Claim C3: single-origin passthrough. -/

/-- Claim C3, counterexample: with a single spreadsheet origin for
Customers and dedup on, the reconciler drops rows (the duplicate key `A`
and the null key), so a single-origin table is not returned with the same
rows and row count regardless of the dedupe flag, contrary to the claim. -/
theorem C3_counterexample :
    merge_sources "Customers" ["CustomerID"] true (some c3Customers) none =
      Except.ok (some { cols := ["CustomerID", "CompanyName"],
                        rows := [[("CustomerID", some (Value.vStr "A")),
                                  ("CompanyName", some (Value.vStr "X"))]] }) ∧
    c3Customers.rows.length = 3 := by
  constructor
  · decide
  · decide

/-- Claim C3 as amended: when exactly one origin is present and dedupe is
off, the reconciler returns that origin unchanged apart from the
order-identifier shift, and the shift is the identity for logical tables
other than Orders / Order Details; when dedupe is on, the single origin
additionally undergoes null-key dropping and first-occurrence dedup, so
its rows are not preserved in general. -/
theorem C3_single_origin (table : String) (key : List String) :
    (∀ dfs : DF, merge_sources table key false none (some dfs) = Except.ok (some dfs)) ∧
    (∀ dfx adj : DF, adjust_excel_ids table dfx = Except.ok adj →
      merge_sources table key false (some dfx) none = Except.ok (some adj)) ∧
    (∀ dfx : DF,
      ¬ (normTableName table = "orders" ∨ normTableName table = "order details") →
      adjust_excel_ids table dfx = Except.ok dfx) := by
  refine ⟨fun dfs => ?_, fun dfx adj hadj => ?_,
    fun dfx h => adjust_excel_ids_not_order table dfx h⟩
  · exact merge_sources_nodedupe table key none (some dfs) dfs
      (combinedTable_no_excel table (some dfs))
  · exact merge_sources_nodedupe table key (some dfx) none adj
      (combinedTable_excel_ok table dfx adj none hadj)

/-- Witness for C3 at concrete single-origin inputs: a database-only
Customers table and a spreadsheet-only Shippers table both pass through
unchanged with dedupe off. -/
theorem C3_witness :
    merge_sources "Customers" ["CustomerID"] false none (some egCustomers) =
      Except.ok (some egCustomers) ∧
    merge_sources "Shippers" ["ShipperID"] false (some egShippers) none =
      Except.ok (some egShippers) := by
  refine ⟨(C3_single_origin "Customers" ["CustomerID"]).1 egCustomers, ?_⟩
  exact (C3_single_origin "Shippers" ["ShipperID"]).2.1 egShippers egShippers
    ((C3_single_origin "Shippers" ["ShipperID"]).2.2 egShippers (by decide))

/-! Claim C5: the order-identifier key shift. -/

/-- Claim C5, counterexample: the spreadsheet order identifier -1 survives
coercion and is shifted to 199999 < 200000, refuting the claim that every
spreadsheet-derived identifier in the reconciled table is at least
200000. -/
theorem C5_counterexample :
    merge_sources "Orders" ["OrderID"] false (some c5Excel) (some c5Sql) =
      Except.ok (some { cols := ["OrderID"],
                        rows := [[("OrderID", some (Value.vNum 199999))],
                                 [("OrderID", some (Value.vNum 1))]] }) ∧
    ¬ ((200000 : ℚ) ≤ 199999) := by
  constructor
  · decide
  · decide

/-- Claim C5 as amended: for Orders reconciliation the result rows are the
shifted spreadsheet rows followed by the unchanged database rows; a
spreadsheet row whose identifier fails numeric coercion is dropped, and a
surviving row carries truncate(id) + 200000, which is at least 200000
whenever the coerced identifier is nonnegative (the scenario id 5 becomes
200005), while a negative identifier lands below the offset. -/
theorem C5_shift (dfx dfs df2 : DF)
    (h : merge_sources "Orders" ["OrderID"] false (some dfx) (some dfs) =
      Except.ok (some df2)) :
    df2.rows = dfx.rows.filterMap shiftRow ++ dfs.rows ∧
    (∀ r : Row, toNumeric (r.getV "OrderID") = none → shiftRow r = none) ∧
    (∀ (r : Row) (q : ℚ), toNumeric (r.getV "OrderID") = some q →
      (shiftRow r).map (fun r2 => r2.getV "OrderID") =
        some (some (Value.vNum ((ratTrunc q + EXCEL_ORDER_OFFSET : ℤ) : ℚ))) ∧
      (0 ≤ q → (200000 : ℤ) ≤ ratTrunc q + EXCEL_ORDER_OFFSET)) := by
  have horder : normTableName "Orders" = "orders" ∨ normTableName "Orders" = "order details" := by
    left
    decide
  refine ⟨?_, fun r hq => by rw [shiftRow, hq]; rfl, fun r q hq => ⟨?_, fun hq0 => ?_⟩⟩
  · by_cases hcol : "OrderID" ∈ dfx.cols
    · have hadj := adjust_excel_ids_order "Orders" dfx horder hcol
      have hc := combinedTable_excel_ok "Orders" dfx _ (some dfs) hadj
      have hm := merge_sources_nodedupe "Orders" ["OrderID"] (some dfx) (some dfs) _ hc
      rw [hm] at h
      cases h
      rfl
    · have hadj := adjust_excel_ids_missing "Orders" dfx horder hcol
      have hc := combinedTable_excel_error "Orders" dfx (some dfs) _ hadj
      have hm := merge_sources_of_combined_error "Orders" ["OrderID"] false
        (some dfx) (some dfs) _ hc
      rw [hm] at h
      cases h
  · rw [shiftRow, hq, Option.map_some', Option.map_some']
    rw [Row.getV_setV_same]
  · have h0 : (0 : ℤ) ≤ ratTrunc q := by
      rw [ratTrunc, if_pos hq0]
      exact Int.floor_nonneg.mpr hq0
    have : EXCEL_ORDER_OFFSET = 200000 := rfl
    omega

/-- Witness for C5 at the specification scenario: spreadsheet order id 5
with a database side present appears in the reconciled Orders as 200005. -/
theorem C5_witness :
    merge_sources "Orders" ["OrderID"] false (some c5Excel5) (some c5Sql) =
      Except.ok (some { cols := ["OrderID"],
                        rows := [[("OrderID", some (Value.vNum 200005))],
                                 [("OrderID", some (Value.vNum 1))]] }) ∧
    ({ cols := ["OrderID"],
       rows := [[("OrderID", some (Value.vNum 200005))],
                [("OrderID", some (Value.vNum 1))]] } : DF).rows =
      c5Excel5.rows.filterMap shiftRow ++ c5Sql.rows := by
  have h : merge_sources "Orders" ["OrderID"] false (some c5Excel5) (some c5Sql) =
      Except.ok (some { cols := ["OrderID"],
                        rows := [[("OrderID", some (Value.vNum 200005))],
                                 [("OrderID", some (Value.vNum 1))]] }) := by decide
  exact ⟨h, (C5_shift c5Excel5 c5Sql _ h).1⟩

/-! Claim C8: when the reconciler aborts. -/

/-- Claim C8, counterexample: a spreadsheet Customers origin lacking the
declared key column aborts the reconciliation with a KeyError even though
Customers is not an order-bearing table and has an OrderID-independent
schema, refuting the claimed "aborts if and only if an order-bearing
spreadsheet source lacks OrderID". -/
theorem C8_counterexample :
    merge_sources "Customers" ["CustomerID"] true (some c8Customers) none =
      Except.error (EtlError.keyError "key column not found in merged frame") ∧
    ¬ (normTableName "Customers" = "orders" ∨
       normTableName "Customers" = "order details") := by
  constructor
  · decide
  · decide

/-- Claim C8 as amended: the reconciler aborts if and only if either a
spreadsheet origin is present for Orders / Order Details (matched on the
lower-cased, underscore-to-space, trimmed name) without an OrderID column,
or dedup is requested, at least one origin is present, and some declared
key column is absent from the merged frame.  In particular absence of a
source and row-level coercion failures never abort. -/
theorem C8_abort_iff (table : String) (key : List String) (dedupe : Bool)
    (dfx dfs : Option DF) :
    (∃ e, merge_sources table key dedupe dfx dfs = Except.error e) ↔
      ((∃ d, dfx = some d ∧
          (normTableName table = "orders" ∨ normTableName table = "order details") ∧
          "OrderID" ∉ d.cols) ∨
       (¬ (∃ d, dfx = some d ∧
          (normTableName table = "orders" ∨ normTableName table = "order details") ∧
          "OrderID" ∉ d.cols) ∧
        dedupe = true ∧ (dfx.isSome ∨ dfs.isSome) ∧
        ∃ c ∈ key, c ∉ mergedCols dfx dfs)) := by
  have hdedupe : ∀ (dfa dfb : Option DF) (df : DF),
      combinedTable table dfa dfb = Except.ok (some df) →
      ((∃ e, merge_sources table key dedupe dfa dfb = Except.error e) ↔
        (dedupe = true ∧ ∃ c ∈ key, c ∉ df.cols)) := by
    intro dfa dfb df hc
    cases dedupe with
    | false =>
      rw [merge_sources_nodedupe table key dfa dfb df hc]
      simp
    | true =>
      by_cases hall : key.all (fun c => decide (c ∈ df.cols)) = true
      · rw [merge_sources_dedupe_ok table key dfa dfb df hc hall]
        simp only [List.all_eq_true, decide_eq_true_eq] at hall
        constructor
        · rintro ⟨e, he⟩
          cases he
        · rintro ⟨-, c, hck, hcc⟩
          exact absurd (hall c hck) hcc
      · rw [merge_sources_dedupe_badkey table key dfa dfb df hc hall]
        simp only [List.all_eq_true, decide_eq_true_eq, not_forall] at hall
        rcases hall with ⟨c, hck, hcc⟩
        exact ⟨fun _ => ⟨rfl, c, hck, hcc⟩, fun _ => ⟨_, rfl⟩⟩
  cases dfx with
  | none =>
    have hnoA : ¬ (∃ d, (none : Option DF) = some d ∧
        (normTableName table = "orders" ∨ normTableName table = "order details") ∧
        "OrderID" ∉ d.cols) := by
      rintro ⟨d, hd, -⟩
      cases hd
    cases dfs with
    | none =>
      rw [show merge_sources table key dedupe none none = Except.ok none from
        merge_sources_of_combined_none table key dedupe none none
          (combinedTable_no_excel table none)]
      simp [hnoA]
    | some ds =>
      have hc : combinedTable table none (some ds) = Except.ok (some ds) :=
        combinedTable_no_excel table (some ds)
      rw [hdedupe none (some ds) ds hc]
      simp only [hnoA, false_or, Option.isSome_none, Option.isSome_some, mergedCols]
      constructor
      · rintro ⟨hd, c, hck, hcc⟩
        exact ⟨not_false, hd, Or.inr trivial, c, hck, hcc⟩
      · rintro ⟨-, hd, -, c, hck, hcc⟩
        exact ⟨hd, c, hck, hcc⟩
  | some dx =>
    by_cases hA : (normTableName table = "orders" ∨ normTableName table = "order details") ∧
        "OrderID" ∉ dx.cols
    · have hadj := adjust_excel_ids_missing table dx hA.1 hA.2
      have hc := combinedTable_excel_error table dx dfs _ hadj
      rw [merge_sources_of_combined_error table key dedupe (some dx) dfs _ hc]
      constructor
      · intro _
        exact Or.inl ⟨dx, rfl, hA.1, hA.2⟩
      · intro _
        exact ⟨_, rfl⟩
    · have hnoA : ¬ (∃ d, (some dx : Option DF) = some d ∧
          (normTableName table = "orders" ∨ normTableName table = "order details") ∧
          "OrderID" ∉ d.cols) := by
        rintro ⟨d, hd, h1, h2⟩
        cases hd
        exact hA ⟨h1, h2⟩
      have hadj : ∃ adj : DF, adjust_excel_ids table dx = Except.ok adj ∧
          adj.cols = dx.cols := by
        by_cases ho : normTableName table = "orders" ∨ normTableName table = "order details"
        · have hcol : "OrderID" ∈ dx.cols := by
            by_contra hc2
            exact hA ⟨ho, hc2⟩
          exact ⟨_, adjust_excel_ids_order table dx ho hcol, rfl⟩
        · exact ⟨dx, adjust_excel_ids_not_order table dx ho, rfl⟩
      rcases hadj with ⟨adj, hadj, hcols⟩
      have hc := combinedTable_excel_ok table dx adj dfs hadj
      cases dfs with
      | none =>
        rw [hdedupe (some dx) none adj hc]
        simp only [hnoA, false_or, Option.isSome_some, mergedCols, hcols]
        constructor
        · rintro ⟨hd, c, hck, hcc⟩
          exact ⟨not_false, hd, Or.inl trivial, c, hck, hcc⟩
        · rintro ⟨-, hd, -, c, hck, hcc⟩
          exact ⟨hd, c, hck, hcc⟩
      | some ds =>
        rw [hdedupe (some dx) (some ds) (adj.concat ds) hc]
        have hcu : (adj.concat ds).cols = colUnion dx.cols ds.cols := by
          rw [show (adj.concat ds).cols = colUnion adj.cols ds.cols from rfl, hcols]
        simp only [hnoA, false_or, Option.isSome_some, mergedCols, hcu]
        constructor
        · rintro ⟨hd, c, hck, hcc⟩
          exact ⟨not_false, hd, Or.inl trivial, c, hck, hcc⟩
        · rintro ⟨-, hd, -, c, hck, hcc⟩
          exact ⟨hd, c, hck, hcc⟩

/-! Claim C4: dedup semantics of the reconciler. -/

/-- Claim C4: with dedup on, the reconciled table has no null value in any
key column; its key combinations are pairwise distinct; every surviving
row is the first row of the spreadsheet-then-database concatenation that
carries its key combination (with only the bookkeeping `_source` column
removed, so all data fields are that first row\u2019s); and every non-null key
combination of the concatenation is represented. -/
theorem C4_dedup (table : String) (subset : List String) (dfx dfs : Option DF)
    (df2 : DF) (hs : "_source" ∉ subset)
    (h : merge_sources table subset true dfx dfs = Except.ok (some df2)) :
    ∃ l : DF, combinedTable table dfx dfs = Except.ok (some l) ∧
      (∀ r ∈ df2.rows, ∀ c ∈ subset, (r.getV c).isSome = true) ∧
      ((df2.rows.map (keyOf subset)).Nodup) ∧
      (∀ r2 ∈ df2.rows, ∃ r ∈ l.rows, r2 = r.eraseCol "_source" ∧
        l.rows.find? (fun y => keyOf subset y = keyOf subset r) = some r) ∧
      (∀ r ∈ l.rows, (∀ c ∈ subset, (r.getV c).isSome = true) →
        ∃ r2 ∈ df2.rows, keyOf subset r2 = keyOf subset r) := by
  cases hct : combinedTable table dfx dfs with
  | error e =>
    rw [merge_sources_of_combined_error table subset true dfx dfs e hct] at h
    cases h
  | ok dfo =>
    cases dfo with
    | none =>
      rw [merge_sources_of_combined_none table subset true dfx dfs hct] at h
      cases h
    | some l =>
      by_cases hall : subset.all (fun c => decide (c ∈ l.cols)) = true
      · rw [merge_sources_dedupe_ok table subset dfx dfs l hct hall] at h
        have hdf2 : df2 = ((l.dropDuplicates subset).dropna subset).dropCol "_source" :=
          (Option.some.inj (Except.ok.inj h)).symm
        subst hdf2
        have hrows : (((l.dropDuplicates subset).dropna subset).dropCol "_source").rows =
            ((dedupBy (keyOf subset) l.rows).filter
              (fun r => subset.all (fun c => (r.getV c).isSome))).map
              (fun r => r.eraseCol "_source") := rfl
        refine ⟨l, rfl, ?_, ?_, ?_, ?_⟩
        · intro r hr c hc
          rw [hrows] at hr
          rcases List.mem_map.mp hr with ⟨r1, hr1, rfl⟩
          have hp := List.of_mem_filter hr1
          simp only [List.all_eq_true] at hp
          rw [Row.getV_eraseCol r1 "_source" c (fun hcc => hs (hcc ▸ hc))]
          exact hp c hc
        · have he : ((((l.dropDuplicates subset).dropna subset).dropCol "_source").rows).map
              (keyOf subset) =
              ((dedupBy (keyOf subset) l.rows).filter
                (fun r => subset.all (fun c => (r.getV c).isSome))).map (keyOf subset) := by
            rw [hrows, List.map_map]
            apply List.map_congr_left
            intro r1 _
            exact keyOf_eraseCol subset r1 hs
          rw [he]
          have hsub : List.Sublist
              (((dedupBy (keyOf subset) l.rows).filter
                (fun r => subset.all (fun c => (r.getV c).isSome))).map (keyOf subset))
              ((dedupBy (keyOf subset) l.rows).map (keyOf subset)) :=
            List.Sublist.map _ (List.filter_sublist _)
          exact List.Nodup.sublist hsub (nodup_map_dedupBy (keyOf subset) l.rows)
        · intro r2 hr2
          rw [hrows] at hr2
          rcases List.mem_map.mp hr2 with ⟨r1, hr1, rfl⟩
          have hD := List.mem_of_mem_filter hr1
          exact ⟨r1, mem_of_mem_dedupBy _ _ _ hD, rfl, find_first_of_mem_dedupBy _ _ _ hD⟩
        · intro r hr hsome
          rcases exists_mem_dedupBy (keyOf subset) l.rows r hr with ⟨r0, hr0, hk⟩
          have hget : ∀ c ∈ subset, r0.getV c = r.getV c := by
            intro c hc
            exact forall_of_map_eq _ _ subset hk c hc
          have hsome0 : subset.all (fun c => (r0.getV c).isSome) = true := by
            simp only [List.all_eq_true]
            intro c hc
            rw [hget c hc]
            exact hsome c hc
          have hr0F : r0 ∈ (dedupBy (keyOf subset) l.rows).filter
              (fun rr => subset.all (fun c => (rr.getV c).isSome)) :=
            List.mem_filter.mpr ⟨hr0, hsome0⟩
          refine ⟨r0.eraseCol "_source", ?_, ?_⟩
          · rw [hrows]
            exact List.mem_map.mpr ⟨r0, hr0F, rfl⟩
          · rw [keyOf_eraseCol subset r0 hs, hk]
      · rw [merge_sources_dedupe_badkey table subset dfx dfs l hct hall] at h
        cases h

/-- Witness for C4 at a concrete input: the spreadsheet Customers table
with a duplicate key and a null key reconciles to exactly the first `A`
row, and the stated dedup properties hold there. -/
theorem C4_witness :
    merge_sources "Customers" ["CustomerID"] true (some c4Customers) none =
      Except.ok (some c4Out) ∧
    (∃ l : DF, combinedTable "Customers" (some c4Customers) none = Except.ok (some l) ∧
      (∀ r ∈ c4Out.rows, ∀ c ∈ ["CustomerID"], (r.getV c).isSome = true) ∧
      ((c4Out.rows.map (keyOf ["CustomerID"])).Nodup) ∧
      (∀ r2 ∈ c4Out.rows, ∃ r ∈ l.rows, r2 = r.eraseCol "_source" ∧
        l.rows.find? (fun y => keyOf ["CustomerID"] y = keyOf ["CustomerID"] r) = some r) ∧
      (∀ r ∈ l.rows, (∀ c ∈ ["CustomerID"], (r.getV c).isSome = true) →
        ∃ r2 ∈ c4Out.rows, keyOf ["CustomerID"] r2 = keyOf ["CustomerID"] r)) := by
  have hm : merge_sources "Customers" ["CustomerID"] true (some c4Customers) none =
      Except.ok (some c4Out) := by decide
  exact ⟨hm, C4_dedup "Customers" ["CustomerID"] (some c4Customers) none c4Out
    (by decide) hm⟩

/-! Claim C6: detail normalisation and per-order aggregation. -/

theorem except_bind_ok {ε α β : Type} (a : α) (f : α → Except ε β) :
    (Except.ok a : Except ε α) >>= f = f a := rfl

theorem except_bind_error {ε α β : Type} (e : ε) (f : α → Except ε β) :
    (Except.error e : Except ε α) >>= f = Except.error e := rfl

theorem mapColE_ok (df df2 : DF) (c : String) (f : Option Value → Option Value)
    (h : DF.mapColE df c f = Except.ok df2) :
    df2.cols = df.cols ∧ df2.rows = df.rows.map (applyCol c f) := by
  unfold DF.mapColE at h
  by_cases hc : c ∈ df.cols
  · rw [if_pos hc] at h
    have h2 := (Except.ok.inj h).symm
    subst h2
    exact ⟨rfl, rfl⟩
  · rw [if_neg hc] at h
    cases h

theorem normalizeDetails_rows (od od2 : DF) (h : normalizeDetails od = Except.ok od2) :
    od2.rows = od.rows.map detailRowF := by
  unfold normalizeDetails at h
  cases hm1 : od.mapColE "Discount"
      (fun v => some (Value.vNum ((toNumeric v).getD 0))) with
  | error e =>
    rw [hm1, except_bind_error] at h
    exact Except.noConfusion h
  | ok odA =>
    rw [hm1, except_bind_ok] at h
    cases hm2 : odA.mapColE "Quantity"
        (fun v => some (Value.vNum ((toNumeric v).getD 0))) with
    | error e =>
      rw [hm2, except_bind_error] at h
      exact Except.noConfusion h
    | ok odB =>
      rw [hm2, except_bind_ok] at h
      cases hm3 : odB.mapColE "UnitPrice"
          (fun v => some (Value.vNum ((toNumeric v).getD 0))) with
      | error e =>
        rw [hm3, except_bind_error] at h
        exact Except.noConfusion h
      | ok odC =>
        rw [hm3, except_bind_ok] at h
        have h4 := (Except.ok.inj h).symm
        have hA := (mapColE_ok od odA "Discount" _ hm1).2
        have hB := (mapColE_ok odA odB "Quantity" _ hm2).2
        have hC := (mapColE_ok odB odC "UnitPrice" _ hm3).2
        rw [h4]
        show ((odC.setColByRow "LineTotal" _).setColByRow "DetailCount" _).rows = _
        rw [show ((odC.setColByRow "LineTotal" (fun r =>
            some (Value.vNum (numCell (r.getV "UnitPrice") * numCell (r.getV "Quantity") *
              (1 - numCell (r.getV "Discount")))))).setColByRow "DetailCount"
            (fun _ => some (Value.vNum 1))).rows =
          (odC.rows.map (fun r => r.setV "LineTotal"
            (some (Value.vNum (numCell (r.getV "UnitPrice") * numCell (r.getV "Quantity") *
              (1 - numCell (r.getV "Discount"))))))).map
            (fun r => r.setV "DetailCount" (some (Value.vNum 1))) from rfl]
        rw [hC, hB, hA]
        simp only [List.map_map]
        rfl

theorem detail_summary_ok (od2 ds : DF) (h : detail_summary od2 = Except.ok ds) :
    ds.rows = (groupKeys od2).map (aggRow od2) := by
  unfold detail_summary at h
  by_cases hc : "OrderID" ∈ od2.cols
  · rw [if_pos hc] at h
    have h2 := (Except.ok.inj h).symm
    subst h2
    rfl
  · rw [if_neg hc] at h
    cases h

theorem detailCoerced_getV_discount (r : Row) :
    (detailCoerced r).getV "Discount" =
      some (Value.vNum ((toNumeric (r.getV "Discount")).getD 0)) := by
  unfold detailCoerced applyCol
  rw [Row.getV_setV_other _ _ _ _ (by decide), Row.getV_setV_other _ _ _ _ (by decide),
    Row.getV_setV_same]

theorem detailCoerced_getV_quantity (r : Row) :
    (detailCoerced r).getV "Quantity" =
      some (Value.vNum ((toNumeric (r.getV "Quantity")).getD 0)) := by
  unfold detailCoerced applyCol
  rw [Row.getV_setV_other _ _ _ _ (by decide), Row.getV_setV_same,
    Row.getV_setV_other _ _ _ _ (by decide)]

theorem detailCoerced_getV_unitPrice (r : Row) :
    (detailCoerced r).getV "UnitPrice" =
      some (Value.vNum ((toNumeric (r.getV "UnitPrice")).getD 0)) := by
  unfold detailCoerced applyCol
  rw [Row.getV_setV_same, Row.getV_setV_other _ _ _ _ (by decide),
    Row.getV_setV_other _ _ _ _ (by decide)]

theorem detailCoerced_getV_other (r : Row) (c : String)
    (h1 : c ≠ "Discount") (h2 : c ≠ "Quantity") (h3 : c ≠ "UnitPrice") :
    (detailCoerced r).getV c = r.getV c := by
  unfold detailCoerced applyCol
  rw [Row.getV_setV_other _ _ _ _ h3, Row.getV_setV_other _ _ _ _ h2,
    Row.getV_setV_other _ _ _ _ h1]

theorem detailRowF_getV_other (r : Row) (c : String)
    (h1 : c ≠ "Discount") (h2 : c ≠ "Quantity") (h3 : c ≠ "UnitPrice")
    (h4 : c ≠ "LineTotal") (h5 : c ≠ "DetailCount") :
    (detailRowF r).getV c = r.getV c := by
  unfold detailRowF applyRow
  rw [Row.getV_setV_other _ _ _ _ h5, Row.getV_setV_other _ _ _ _ h4]
  exact detailCoerced_getV_other r c h1 h2 h3

theorem detailRowF_getV_lineTotal (r : Row) :
    (detailRowF r).getV "LineTotal" =
      some (Value.vNum (numCell (r.getV "UnitPrice") * numCell (r.getV "Quantity") *
        (1 - numCell (r.getV "Discount")))) := by
  unfold detailRowF applyRow
  rw [Row.getV_setV_other _ _ _ _ (by decide), Row.getV_setV_same]
  simp only [detailCoerced_getV_unitPrice, detailCoerced_getV_quantity,
    detailCoerced_getV_discount]
  rfl

theorem detailRowF_getV_detailCount (r : Row) :
    (detailRowF r).getV "DetailCount" = some (Value.vNum 1) := by
  unfold detailRowF applyRow
  rw [Row.getV_setV_same]

theorem detailRowF_getV_quantity (r : Row) :
    (detailRowF r).getV "Quantity" =
      some (Value.vNum ((toNumeric (r.getV "Quantity")).getD 0)) := by
  unfold detailRowF applyRow
  rw [Row.getV_setV_other _ _ _ _ (by decide), Row.getV_setV_other _ _ _ _ (by decide),
    detailCoerced_getV_quantity]

theorem detailRowF_getV_discount (r : Row) :
    (detailRowF r).getV "Discount" =
      some (Value.vNum ((toNumeric (r.getV "Discount")).getD 0)) := by
  unfold detailRowF applyRow
  rw [Row.getV_setV_other _ _ _ _ (by decide), Row.getV_setV_other _ _ _ _ (by decide),
    detailCoerced_getV_discount]

theorem aggRow_getV_orderID (od2 : DF) (k : Value) :
    (aggRow od2 k).getV "OrderID" = some k := by
  simp only [aggRow]
  rw [Row.getV_cons, if_pos rfl]

theorem aggRow_getV_detailCount (od2 : DF) (k : Value) :
    (aggRow od2 k).getV "DetailCount" = some (Value.vNum
      (((od2.rows.filter (fun r => r.getV "OrderID" = some k)).map
        (fun r => numCell (r.getV "DetailCount"))).sum)) := by
  simp only [aggRow]
  rw [Row.getV_cons, if_neg (by decide), Row.getV_cons, if_pos rfl]

theorem aggRow_getV_totalQuantity (od2 : DF) (k : Value) :
    (aggRow od2 k).getV "TotalQuantity" = some (Value.vNum
      (((od2.rows.filter (fun r => r.getV "OrderID" = some k)).map
        (fun r => numCell (r.getV "Quantity"))).sum)) := by
  simp only [aggRow]
  rw [Row.getV_cons, if_neg (by decide), Row.getV_cons, if_neg (by decide),
    Row.getV_cons, if_pos rfl]

theorem aggRow_getV_averageDiscount (od2 : DF) (k : Value) :
    (aggRow od2 k).getV "AverageDiscount" = some (Value.vNum
      ((((od2.rows.filter (fun r => r.getV "OrderID" = some k)).map
        (fun r => numCell (r.getV "Discount"))).sum) /
        ((od2.rows.filter (fun r => r.getV "OrderID" = some k)).length : ℚ))) := by
  simp only [aggRow]
  rw [Row.getV_cons, if_neg (by decide), Row.getV_cons, if_neg (by decide),
    Row.getV_cons, if_neg (by decide), Row.getV_cons, if_pos rfl]

theorem aggRow_getV_totalLineTotal (od2 : DF) (k : Value) :
    (aggRow od2 k).getV "TotalLineTotal" = some (Value.vNum
      (((od2.rows.filter (fun r => r.getV "OrderID" = some k)).map
        (fun r => numCell (r.getV "LineTotal"))).sum)) := by
  simp only [aggRow]
  rw [Row.getV_cons, if_neg (by decide), Row.getV_cons, if_neg (by decide),
    Row.getV_cons, if_neg (by decide), Row.getV_cons, if_neg (by decide),
    Row.getV_cons, if_pos rfl]

/-! The C6 claim theorem. -/

/-- Claim C6: after null-to-zero coercion of Discount, Quantity and
UnitPrice, every normalised detail row carries
LineTotal = UnitPrice * Quantity * (1 - Discount) computed from the
original row, and for every order identifier occurring in the details the
aggregate row carries DetailCount = number of detail rows of that order,
TotalQuantity = sum of coerced quantities, AverageDiscount = mean of
coerced discounts and TotalLineTotal = sum of line totals. -/
theorem C6_aggregates (od od2 ds : DF)
    (h1 : normalizeDetails od = Except.ok od2)
    (h2 : detail_summary od2 = Except.ok ds) :
    (od2.rows.length = od.rows.length) ∧
    (∀ (i : ℕ) (hi : i < od.rows.length) (hi2 : i < od2.rows.length),
      (od2.rows.get ⟨i, hi2⟩).getV "LineTotal" =
        some (Value.vNum (numCell ((od.rows.get ⟨i, hi⟩).getV "UnitPrice") *
          numCell ((od.rows.get ⟨i, hi⟩).getV "Quantity") *
          (1 - numCell ((od.rows.get ⟨i, hi⟩).getV "Discount"))))) ∧
    (∀ k : Value, (∃ r ∈ od.rows, r.getV "OrderID" = some k) →
      ∃ a ∈ ds.rows, a.getV "OrderID" = some k ∧
        a.getV "DetailCount" = some (Value.vNum
          ((od.rows.filter (fun r => r.getV "OrderID" = some k)).length : ℚ)) ∧
        a.getV "TotalQuantity" = some (Value.vNum
          (((od.rows.filter (fun r => r.getV "OrderID" = some k)).map
            (fun r => numCell (r.getV "Quantity"))).sum)) ∧
        a.getV "AverageDiscount" = some (Value.vNum
          ((((od.rows.filter (fun r => r.getV "OrderID" = some k)).map
            (fun r => numCell (r.getV "Discount"))).sum) /
            ((od.rows.filter (fun r => r.getV "OrderID" = some k)).length : ℚ))) ∧
        a.getV "TotalLineTotal" = some (Value.vNum
          (((od.rows.filter (fun r => r.getV "OrderID" = some k)).map
            (fun r => numCell (r.getV "UnitPrice") * numCell (r.getV "Quantity") *
              (1 - numCell (r.getV "Discount")))).sum))) := by
  have hrows := normalizeDetails_rows od od2 h1
  have hds := detail_summary_ok od2 ds h2
  have hOID : ∀ r : Row, (detailRowF r).getV "OrderID" = r.getV "OrderID" := fun r =>
    detailRowF_getV_other r "OrderID" (by decide) (by decide) (by decide) (by decide)
      (by decide)
  refine ⟨by rw [hrows, List.length_map], ?_, ?_⟩
  · intro i hi hi2
    have hg : (od2.rows.get ⟨i, hi2⟩) = detailRowF (od.rows.get ⟨i, hi⟩) := by
      simp only [List.get_eq_getElem, hrows, List.getElem_map]
    rw [hg, detailRowF_getV_lineTotal]
  · intro k hk
    have hgk : groupKeys od2 = dedupBy id (od.rows.filterMap (fun r => r.getV "OrderID")) := by
      unfold groupKeys
      rw [hrows, List.filterMap_map]
      rw [show ((fun r => r.getV "OrderID") ∘ detailRowF) =
          (fun r : Row => r.getV "OrderID") from funext (fun r => hOID r)]
    rcases hk with ⟨r0, hr0, hr0k⟩
    have hmem : k ∈ od.rows.filterMap (fun r => r.getV "OrderID") :=
      List.mem_filterMap.mpr ⟨r0, hr0, hr0k⟩
    rcases exists_mem_dedupBy id _ k hmem with ⟨k2, hk2, hk2e⟩
    have hk2k : k2 = k := hk2e
    subst hk2k
    have hgrp : od2.rows.filter (fun r => r.getV "OrderID" = some k2) =
        (od.rows.filter (fun r => r.getV "OrderID" = some k2)).map detailRowF := by
      rw [hrows, List.filter_map]
      rw [show ((fun r => decide (r.getV "OrderID" = some k2)) ∘ detailRowF) =
          (fun r : Row => decide (r.getV "OrderID" = some k2)) from
        funext (fun r => by simp only [Function.comp, hOID r])]
    refine ⟨aggRow od2 k2, ?_, aggRow_getV_orderID od2 k2, ?_, ?_, ?_, ?_⟩
    · rw [hds, hgk]
      exact List.mem_map.mpr ⟨k2, hk2, rfl⟩
    · rw [aggRow_getV_detailCount]
      have hsum : ((od2.rows.filter (fun r => r.getV "OrderID" = some k2)).map
          (fun r => numCell (r.getV "DetailCount"))).sum =
          ((od.rows.filter (fun r => r.getV "OrderID" = some k2)).length : ℚ) := by
        rw [hgrp, List.map_map]
        rw [show ((fun r => numCell (r.getV "DetailCount")) ∘ detailRowF) =
            (fun _ : Row => (1 : ℚ)) from funext (fun r => by
          simp only [Function.comp, detailRowF_getV_detailCount]
          rfl)]
        exact sum_ones_eq_length _
      rw [hsum]
    · rw [aggRow_getV_totalQuantity]
      have hsum : ((od2.rows.filter (fun r => r.getV "OrderID" = some k2)).map
          (fun r => numCell (r.getV "Quantity"))).sum =
          ((od.rows.filter (fun r => r.getV "OrderID" = some k2)).map
            (fun r => numCell (r.getV "Quantity"))).sum := by
        rw [hgrp, List.map_map]
        rw [show ((fun r => numCell (r.getV "Quantity")) ∘ detailRowF) =
            (fun r : Row => numCell (r.getV "Quantity")) from
          funext (fun r => by simp only [Function.comp, detailRowF_getV_quantity]; rfl)]
      rw [hsum]
    · rw [aggRow_getV_averageDiscount]
      have hsum : ((od2.rows.filter (fun r => r.getV "OrderID" = some k2)).map
          (fun r => numCell (r.getV "Discount"))).sum =
          ((od.rows.filter (fun r => r.getV "OrderID" = some k2)).map
            (fun r => numCell (r.getV "Discount"))).sum := by
        rw [hgrp, List.map_map]
        rw [show ((fun r => numCell (r.getV "Discount")) ∘ detailRowF) =
            (fun r : Row => numCell (r.getV "Discount")) from
          funext (fun r => by simp only [Function.comp, detailRowF_getV_discount]; rfl)]
      have hlen : (od2.rows.filter (fun r => r.getV "OrderID" = some k2)).length =
          (od.rows.filter (fun r => r.getV "OrderID" = some k2)).length := by
        rw [hgrp, List.length_map]
      rw [hsum, hlen]
    · rw [aggRow_getV_totalLineTotal]
      have hsum : ((od2.rows.filter (fun r => r.getV "OrderID" = some k2)).map
          (fun r => numCell (r.getV "LineTotal"))).sum =
          ((od.rows.filter (fun r => r.getV "OrderID" = some k2)).map
            (fun r => numCell (r.getV "UnitPrice") * numCell (r.getV "Quantity") *
              (1 - numCell (r.getV "Discount")))).sum := by
        rw [hgrp, List.map_map]
        rw [show ((fun r => numCell (r.getV "LineTotal")) ∘ detailRowF) =
            (fun r : Row => numCell (r.getV "UnitPrice") * numCell (r.getV "Quantity") *
              (1 - numCell (r.getV "Discount"))) from
          funext (fun r => by simp only [Function.comp, detailRowF_getV_lineTotal]; rfl)]
      rw [hsum]

unseal Rat.mul Rat.add Rat.sub Rat.inv in
/-- Witness for C6 at the specification scenario rows: the two detail rows
of order 1 aggregate to DetailCount 2, TotalQuantity 3, AverageDiscount
1/20 and TotalLineTotal 49/2. -/
theorem C6_witness :
    (normalizeDetails egDetails = Except.ok (okOrDefault (normalizeDetails egDetails))) ∧
    (detail_summary (okOrDefault (normalizeDetails egDetails)) =
      Except.ok (okOrDefault (detail_summary (okOrDefault (normalizeDetails egDetails))))) ∧
    ∃ a ∈ (okOrDefault (detail_summary (okOrDefault (normalizeDetails egDetails)))).rows,
      a.getV "OrderID" = some (Value.vNum 1) ∧
      a.getV "DetailCount" = some (Value.vNum 2) ∧
      a.getV "TotalQuantity" = some (Value.vNum 3) ∧
      a.getV "AverageDiscount" = some (Value.vNum (1/20)) ∧
      a.getV "TotalLineTotal" = some (Value.vNum (49/2)) := by
  have h1 : normalizeDetails egDetails =
      Except.ok (okOrDefault (normalizeDetails egDetails)) := rfl
  have h2 : detail_summary (okOrDefault (normalizeDetails egDetails)) =
      Except.ok (okOrDefault (detail_summary (okOrDefault (normalizeDetails egDetails)))) := rfl
  rcases (C6_aggregates egDetails _ _ h1 h2).2.2 (Value.vNum 1)
      ⟨[("OrderID", some (Value.vNum 1)), ("ProductID", some (Value.vNum 11)),
        ("UnitPrice", some (Value.vNum 10)), ("Quantity", some (Value.vNum 2)),
        ("Discount", some (Value.vNum 0))], by decide, by decide⟩ with
    ⟨a, ha, hoid, hdc, htq, had, htl⟩
  refine ⟨h1, h2, a, ha, hoid, ?_, ?_, ?_, ?_⟩
  · rw [hdc]
    decide
  · rw [htq]
    decide
  · rw [had]
    decide
  · rw [htl]
    decide

theorem astypeInt64Col_ok (df df2 : DF) (c : String)
    (h : astypeInt64Col df c = Except.ok df2) :
    df2.cols = df.cols ∧ df2.rows = df.rows.map (applyCol c (fun v =>
      (toNumeric v).map (fun q => Value.vNum ((q.num : ℤ) : ℚ)))) := by
  unfold astypeInt64Col at h
  by_cases h1 : c ∈ df.cols
  · rw [if_pos h1] at h
    by_cases h2 : df.rows.all (fun r =>
        ((toNumeric (r.getV c)).map (fun q => decide (q.den = 1))).getD true) = true
    · rw [if_pos h2] at h
      have h3 := (Except.ok.inj h).symm
      subst h3
      exact ⟨rfl, rfl⟩
    · rw [if_neg h2] at h
      cases h
  · rw [if_neg h1] at h
    cases h

theorem detail_summary_cols (od2 ds : DF) (h : detail_summary od2 = Except.ok ds) :
    ds.cols = ["OrderID", "DetailCount", "TotalQuantity", "AverageDiscount",
      "TotalLineTotal"] := by
  unfold detail_summary at h
  by_cases hc : "OrderID" ∈ od2.cols
  · rw [if_pos hc] at h
    have h2 := (Except.ok.inj h).symm
    subst h2
    rfl
  · rw [if_neg hc] at h
    cases h

theorem detail_summary_keys_nodup (od2 ds : DF) (h : detail_summary od2 = Except.ok ds) :
    (ds.rows.map (fun rr => rr.getV "OrderID")).Nodup := by
  rw [detail_summary_ok od2 ds h, List.map_map]
  rw [show ((fun rr => rr.getV "OrderID") ∘ aggRow od2) = (fun k : Value => some k) from
    funext (fun k => aggRow_getV_orderID od2 k)]
  apply List.Nodup.map (fun a b hab => Option.some.inj hab)
  have h2 := nodup_map_dedupBy (id : Value → Value)
    (od2.rows.filterMap (fun r => r.getV "OrderID"))
  rw [List.map_id] at h2
  exact h2

theorem mergeLeft_ok (l r out : DF) (onCol : String)
    (h : DF.mergeLeft l r onCol = Except.ok out) :
    (onCol ∈ l.cols ∧ onCol ∈ r.cols) ∧ (∀ c ∈ l.cols, c ∈ r.cols → c = onCol) ∧
    out.cols = l.cols ++ r.cols.filter (fun c => c ≠ onCol) ∧
    out.rows = l.rows.flatMap (fun lr =>
      match r.rows.filter (fun rr => rr.getV onCol = lr.getV onCol) with
      | [] => [lr ++ (r.cols.filter (fun c => c ≠ onCol)).map
          (fun c => (c, (none : Option Value)))]
      | ms => ms.map (fun rr => lr ++ (r.cols.filter (fun c => c ≠ onCol)).map
          (fun c => (c, rr.getV c)))) := by
  unfold DF.mergeLeft at h
  by_cases h1 : onCol ∈ l.cols ∧ onCol ∈ r.cols
  · rw [if_pos h1] at h
    by_cases h2 : ∀ c ∈ l.cols, c ∈ r.cols → c = onCol
    · rw [if_pos h2] at h
      have h3 := (Except.ok.inj h).symm
      subst h3
      exact ⟨h1, h2, rfl, rfl⟩
    · rw [if_neg h2] at h
      cases h
  · rw [if_neg h1] at h
    cases h

theorem mergeLeft_rows_map (l r out : DF) (onCol : String)
    (h : DF.mergeLeft l r onCol = Except.ok out)
    (hnd : (r.rows.map (fun rr => rr.getV onCol)).Nodup) :
    out.rows = l.rows.map (fun lr =>
      match r.rows.find? (fun rr => rr.getV onCol = lr.getV onCol) with
      | some rr => lr ++ (r.cols.filter (fun c => c ≠ onCol)).map (fun c => (c, rr.getV c))
      | none => lr ++ (r.cols.filter (fun c => c ≠ onCol)).map
          (fun c => (c, (none : Option Value)))) := by
  rw [(mergeLeft_ok l r out onCol h).2.2.2]
  apply flatMap_eq_map
  intro lr _
  rw [filter_eq_find_toList (fun rr => rr.getV onCol) (lr.getV onCol) r.rows hnd]
  cases hf : r.rows.find? (fun rr => rr.getV onCol = lr.getV onCol) with
  | none => rfl
  | some rr => rfl

set_option maxHeartbeats 800000 in
theorem build_fact_shape (ordersD od fact : DF)
    (h : build_fact ordersD od = Except.ok fact) :
    ∃ od2 ds : DF, normalizeDetails od = Except.ok od2 ∧ detail_summary od2 = Except.ok ds ∧
      ds.cols = ["OrderID", "DetailCount", "TotalQuantity", "AverageDiscount",
        "TotalLineTotal"] ∧
      (∀ c ∈ (ordersD.dropCol "_source").cols, c ∈ ds.cols → c = "OrderID") ∧
      (ds.rows.map (fun rr => rr.getV "OrderID")).Nodup ∧
      fact.rows = ordersD.rows.map (factRowF ds) := by
  unfold build_fact at h
  cases hnd : normalizeDetails od with
  | error e => rw [hnd, except_bind_error] at h; exact Except.noConfusion h
  | ok od2 =>
    rw [hnd, except_bind_ok] at h
    cases hds : detail_summary od2 with
    | error e => rw [hds, except_bind_error] at h; exact Except.noConfusion h
    | ok ds =>
      rw [hds, except_bind_ok] at h
      cases hml : (ordersD.dropCol "_source").mergeLeft ds "OrderID" with
      | error e => rw [hml, except_bind_error] at h; exact Except.noConfusion h
      | ok f0 =>
        rw [hml, except_bind_ok] at h
        cases hf1 : f0.mapColE "OrderDate"
            (fun v => some (Value.vDate ((toDatetime v).getD defaultDate))) with
        | error e => rw [hf1, except_bind_error] at h; exact Except.noConfusion h
        | ok f1 =>
          rw [hf1, except_bind_ok] at h
          cases hf3 : (f1.setColByRow "TimeKey" (fun r =>
              some (Value.vNum ((((toDatetime (r.getV "OrderDate")).getD
                defaultDate).timeKey : ℤ) : ℚ)))).mapColE "DetailCount"
              (fun v => some (Value.vNum ((ratTrunc ((toNumeric v).getD 0) : ℤ) : ℚ))) with
          | error e => rw [hf3, except_bind_error] at h; exact Except.noConfusion h
          | ok f3 =>
            rw [hf3, except_bind_ok] at h
            cases hf4 : f3.mapColE "TotalQuantity"
                (fun v => some (Value.vNum ((toNumeric v).getD 0))) with
            | error e => rw [hf4, except_bind_error] at h; exact Except.noConfusion h
            | ok f4 =>
              rw [hf4, except_bind_ok] at h
              cases hf5 : f4.mapColE "AverageDiscount"
                  (fun v => some (Value.vNum ((toNumeric v).getD 0))) with
              | error e => rw [hf5, except_bind_error] at h; exact Except.noConfusion h
              | ok f5 =>
                rw [hf5, except_bind_ok] at h
                cases hf6 : f5.mapColE "TotalLineTotal"
                    (fun v => some (Value.vNum ((toNumeric v).getD 0))) with
                | error e => rw [hf6, except_bind_error] at h; exact Except.noConfusion h
                | ok f6 =>
                  rw [hf6, except_bind_ok] at h
                  cases hf7 : f6.mapColE "Freight"
                      (fun v => some (Value.vNum ((toNumeric v).getD 0))) with
                  | error e => rw [hf7, except_bind_error] at h; exact Except.noConfusion h
                  | ok f7 =>
                    rw [hf7, except_bind_ok] at h
                    cases hf9 : (f7.rename factRename).mapColE "CustomerKey"
                        (fun v => some (Value.vStr (pyStrip (pyStr v)))) with
                    | error e => rw [hf9, except_bind_error] at h; exact Except.noConfusion h
                    | ok f9 =>
                      rw [hf9, except_bind_ok] at h
                      cases hf10 : astypeInt64Col f9 "EmployeeKey" with
                      | error e =>
                        rw [hf10, except_bind_error] at h
                        exact Except.noConfusion h
                      | ok f10 =>
                        rw [hf10, except_bind_ok] at h
                        refine ⟨od2, ds, rfl, hds, detail_summary_cols od2 ds hds,
                          (mergeLeft_ok _ _ _ _ hml).2.1, detail_summary_keys_nodup od2 ds hds,
                          ?_⟩
                        have e11 := (astypeInt64Col_ok f10 fact "ShipperKey" h).2
                        have e10 := (astypeInt64Col_ok f9 f10 "EmployeeKey" hf10).2
                        have e9 := (mapColE_ok _ _ _ _ hf9).2
                        have e7 := (mapColE_ok _ _ _ _ hf7).2
                        have e6 := (mapColE_ok _ _ _ _ hf6).2
                        have e5 := (mapColE_ok _ _ _ _ hf5).2
                        have e4 := (mapColE_ok _ _ _ _ hf4).2
                        have e3 := (mapColE_ok _ _ _ _ hf3).2
                        have e1 := (mapColE_ok _ _ _ _ hf1).2
                        have e0 := mergeLeft_rows_map _ _ _ _ hml
                          (detail_summary_keys_nodup od2 ds hds)
                        rw [e11, e10, e9, show (f7.rename factRename).rows =
                          f7.rows.map (Row.renameCols factRename) from rfl,
                          e7, e6, e5, e4, e3,
                          show (f1.setColByRow "TimeKey" (fun r =>
                            some (Value.vNum ((((toDatetime (r.getV "OrderDate")).getD
                              defaultDate).timeKey : ℤ) : ℚ)))).rows =
                            f1.rows.map (applyRow "TimeKey" (fun r =>
                              some (Value.vNum ((((toDatetime (r.getV "OrderDate")).getD
                                defaultDate).timeKey : ℤ) : ℚ)))) from rfl,
                          e1, e0,
                          show (ordersD.dropCol "_source").rows =
                            ordersD.rows.map (fun r => r.eraseCol "_source") from rfl]
                        simp only [List.map_map]
                        apply List.map_congr_left
                        intro lr hlr
                        simp only [Function.comp_apply]
                        rfl

theorem getV_applyCol_same (c : String) (f : Option Value → Option Value) (r : Row) :
    (applyCol c f r).getV c = f (r.getV c) := by
  unfold applyCol
  rw [Row.getV_setV_same]

theorem getV_applyCol_other (c c2 : String) (f : Option Value → Option Value) (r : Row)
    (hne : c2 ≠ c) : (applyCol c f r).getV c2 = r.getV c2 := by
  unfold applyCol
  rw [Row.getV_setV_other _ _ _ _ hne]

theorem getV_applyRow_same (c : String) (f : Row → Option Value) (r : Row) :
    (applyRow c f r).getV c = f r := by
  unfold applyRow
  rw [Row.getV_setV_same]

theorem getV_applyRow_other (c c2 : String) (f : Row → Option Value) (r : Row)
    (hne : c2 ≠ c) : (applyRow c f r).getV c2 = r.getV c2 := by
  unfold applyRow
  rw [Row.getV_setV_other _ _ _ _ hne]

theorem factRename_lookup_targets (s d : String)
    (h : List.lookup s factRename = some d) :
    d = "OrderKey" ∨ d = "CustomerKey" ∨ d = "EmployeeKey" ∨ d = "ShipperKey" := by
  simp only [factRename, List.lookup] at h
  by_cases h1 : s = "OrderID"
  · subst h1
    exact Or.inl (Option.some.inj h).symm
  · rw [show (s == "OrderID") = false from beq_eq_false_iff_ne.mpr h1] at h
    by_cases h2 : s = "CustomerID"
    · subst h2
      exact Or.inr (Or.inl (Option.some.inj h).symm)
    · rw [show (s == "CustomerID") = false from beq_eq_false_iff_ne.mpr h2] at h
      by_cases h3 : s = "EmployeeID"
      · subst h3
        exact Or.inr (Or.inr (Or.inl (Option.some.inj h).symm))
      · rw [show (s == "EmployeeID") = false from beq_eq_false_iff_ne.mpr h3] at h
        by_cases h4 : s = "ShipVia"
        · subst h4
          exact Or.inr (Or.inr (Or.inr (Option.some.inj h).symm))
        · rw [show (s == "ShipVia") = false from beq_eq_false_iff_ne.mpr h4] at h
          exact Option.noConfusion h

theorem renameCols_fact_skip (r : Row) (c : String)
    (hmc : List.lookup c factRename = none)
    (hne1 : c ≠ "OrderKey") (hne2 : c ≠ "CustomerKey")
    (hne3 : c ≠ "EmployeeKey") (hne4 : c ≠ "ShipperKey") :
    (Row.renameCols factRename r).getV c = r.getV c := by
  apply Row.getV_renameCols_self factRename c r hmc
  intro p _ d hd
  rcases factRename_lookup_targets p.1 d hd with h | h | h | h <;>
    (rw [h]; first
      | exact fun hc => hne1 hc.symm
      | exact fun hc => hne2 hc.symm
      | exact fun hc => hne3 hc.symm
      | exact fun hc => hne4 hc.symm)

theorem factRowF_getV_detailCount (ds : DF) (lr : Row) :
    (factRowF ds lr).getV "DetailCount" =
      some (Value.vNum ((ratTrunc ((toNumeric
        ((joinDetail ds (lr.eraseCol "_source")).getV "DetailCount")).getD 0) : ℤ) : ℚ)) := by
  unfold factRowF
  rw [getV_applyCol_other _ _ _ _ (by decide), getV_applyCol_other _ _ _ _ (by decide),
    getV_applyCol_other _ _ _ _ (by decide),
    renameCols_fact_skip _ _ (by decide) (by decide) (by decide) (by decide) (by decide),
    getV_applyCol_other _ _ _ _ (by decide), getV_applyCol_other _ _ _ _ (by decide),
    getV_applyCol_other _ _ _ _ (by decide), getV_applyCol_other _ _ _ _ (by decide),
    getV_applyCol_same,
    getV_applyRow_other _ _ _ _ (by decide), getV_applyCol_other _ _ _ _ (by decide)]

theorem factRowF_getV_totalQuantity (ds : DF) (lr : Row) :
    (factRowF ds lr).getV "TotalQuantity" =
      some (Value.vNum ((toNumeric
        ((joinDetail ds (lr.eraseCol "_source")).getV "TotalQuantity")).getD 0)) := by
  unfold factRowF
  rw [getV_applyCol_other _ _ _ _ (by decide), getV_applyCol_other _ _ _ _ (by decide),
    getV_applyCol_other _ _ _ _ (by decide),
    renameCols_fact_skip _ _ (by decide) (by decide) (by decide) (by decide) (by decide),
    getV_applyCol_other _ _ _ _ (by decide), getV_applyCol_other _ _ _ _ (by decide),
    getV_applyCol_other _ _ _ _ (by decide),
    getV_applyCol_same,
    getV_applyCol_other _ _ _ _ (by decide),
    getV_applyRow_other _ _ _ _ (by decide), getV_applyCol_other _ _ _ _ (by decide)]

theorem factRowF_getV_averageDiscount (ds : DF) (lr : Row) :
    (factRowF ds lr).getV "AverageDiscount" =
      some (Value.vNum ((toNumeric
        ((joinDetail ds (lr.eraseCol "_source")).getV "AverageDiscount")).getD 0)) := by
  unfold factRowF
  rw [getV_applyCol_other _ _ _ _ (by decide), getV_applyCol_other _ _ _ _ (by decide),
    getV_applyCol_other _ _ _ _ (by decide),
    renameCols_fact_skip _ _ (by decide) (by decide) (by decide) (by decide) (by decide),
    getV_applyCol_other _ _ _ _ (by decide), getV_applyCol_other _ _ _ _ (by decide),
    getV_applyCol_same,
    getV_applyCol_other _ _ _ _ (by decide), getV_applyCol_other _ _ _ _ (by decide),
    getV_applyRow_other _ _ _ _ (by decide), getV_applyCol_other _ _ _ _ (by decide)]

theorem factRowF_getV_totalLineTotal (ds : DF) (lr : Row) :
    (factRowF ds lr).getV "TotalLineTotal" =
      some (Value.vNum ((toNumeric
        ((joinDetail ds (lr.eraseCol "_source")).getV "TotalLineTotal")).getD 0)) := by
  unfold factRowF
  rw [getV_applyCol_other _ _ _ _ (by decide), getV_applyCol_other _ _ _ _ (by decide),
    getV_applyCol_other _ _ _ _ (by decide),
    renameCols_fact_skip _ _ (by decide) (by decide) (by decide) (by decide) (by decide),
    getV_applyCol_other _ _ _ _ (by decide),
    getV_applyCol_same,
    getV_applyCol_other _ _ _ _ (by decide), getV_applyCol_other _ _ _ _ (by decide),
    getV_applyCol_other _ _ _ _ (by decide),
    getV_applyRow_other _ _ _ _ (by decide), getV_applyCol_other _ _ _ _ (by decide)]

theorem joinDetail_getV_none (ds : DF) (er : Row) (c : String)
    (hfind : ds.rows.find? (fun rr => rr.getV "OrderID" = er.getV "OrderID") = none)
    (hbind : ∀ p ∈ er, p.1 ≠ c) :
    (joinDetail ds er).getV c = none := by
  unfold joinDetail
  rw [hfind]
  rw [Row.getV_append, Row.lookup_eq_none_of_forall er c hbind,
    Row.getV_reindexed (ds.cols.filter (fun c2 => c2 ≠ "OrderID")) (fun _ => none) c]
  simp

theorem joinDetail_getV_found (ds : DF) (er rr : Row) (c : String)
    (hfind : ds.rows.find? (fun rr2 => rr2.getV "OrderID" = er.getV "OrderID") = some rr)
    (hbind : ∀ p ∈ er, p.1 ≠ c)
    (hc : c ∈ ds.cols.filter (fun c2 => c2 ≠ "OrderID")) :
    (joinDetail ds er).getV c = rr.getV c := by
  unfold joinDetail
  rw [hfind]
  rw [Row.getV_append, Row.lookup_eq_none_of_forall er c hbind,
    show ((ds.cols.filter (fun c2 => c2 ≠ "OrderID")).map (fun c2 => (c2, rr.getV c2))) =
      ((ds.cols.filter (fun c2 => c2 ≠ "OrderID")).map
        (fun c2 => (c2, (fun c3 => rr.getV c3) c2))) from rfl,
    Row.getV_reindexed (ds.cols.filter (fun c2 => c2 ≠ "OrderID")) (fun c3 => rr.getV c3) c,
    if_pos hc]

theorem ratTrunc_natCast (n : ℕ) : ratTrunc ((n : ℚ)) = (n : ℤ) := by
  unfold ratTrunc
  rw [if_pos (by positivity)]
  exact Int.floor_natCast n

theorem ratTrunc_zero : ratTrunc 0 = 0 := by
  unfold ratTrunc
  rw [if_pos le_rfl]
  exact Int.floor_zero

/-! Claim C7: the left join keeps detail-less orders with zero-filled
measures. -/

/-- Claim C7: for every reconciled Orders table whose rows bind only
declared columns, a successful fact build keeps exactly one fact row per
order row (the left join drops nothing); every fact row's DetailCount is a
natural number (hence non-null and nonnegative); and every order with zero
matching detail rows receives exactly DetailCount = 0, TotalQuantity = 0,
AverageDiscount = 0 and TotalLineTotal = 0, never null. -/
theorem C7_left_join (ordersD od fact : DF)
    (hconf : ∀ r ∈ ordersD.rows, ∀ p ∈ r, p.1 ∈ ordersD.cols)
    (h : build_fact ordersD od = Except.ok fact) :
    fact.rows.length = ordersD.rows.length ∧
    (∀ fr ∈ fact.rows, ∃ n : ℕ, fr.getV "DetailCount" = some (Value.vNum (n : ℚ))) ∧
    List.Forall₂ (fun lr fr =>
      (∀ dr ∈ od.rows, dr.getV "OrderID" ≠ lr.getV "OrderID") →
        fr.getV "DetailCount" = some (Value.vNum 0) ∧
        fr.getV "TotalQuantity" = some (Value.vNum 0) ∧
        fr.getV "AverageDiscount" = some (Value.vNum 0) ∧
        fr.getV "TotalLineTotal" = some (Value.vNum 0)) ordersD.rows fact.rows := by
  obtain ⟨od2, ds, hod2, hds, hdscols, hsep, hnodup, hrows⟩ :=
    build_fact_shape ordersD od fact h
  have hmeas_not : ∀ c, c ∈ ds.cols → c ≠ "OrderID" → c ≠ "_source" →
      c ∉ ordersD.cols := by
    intro c hcds hcnoid hcns hmem
    have hdc : c ∈ (ordersD.dropCol "_source").cols := by
      unfold DF.dropCol
      exact List.mem_filter.mpr ⟨hmem, by simp [hcns]⟩
    exact hcnoid (hsep c hdc hcds)
  have hbind : ∀ lr ∈ ordersD.rows, ∀ c, c ∈ ds.cols → c ≠ "OrderID" → c ≠ "_source" →
      ∀ p ∈ lr.eraseCol "_source", p.1 ≠ c := by
    intro lr hlr c hcds hcnoid hcns p hp hpc
    have hp2 : p ∈ lr := List.mem_of_mem_filter hp
    have := hconf lr hlr p hp2
    rw [hpc] at this
    exact hmeas_not c hcds hcnoid hcns this
  have hnof : ∀ lr ∈ ordersD.rows,
      (∀ dr ∈ od.rows, dr.getV "OrderID" ≠ lr.getV "OrderID") →
      ds.rows.find? (fun rr =>
        rr.getV "OrderID" = (lr.eraseCol "_source").getV "OrderID") = none := by
    intro lr _ hno
    rw [List.find?_eq_none]
    intro rr hrr
    rw [detail_summary_ok od2 ds hds] at hrr
    obtain ⟨k, hk, hrrk⟩ := List.mem_map.mp hrr
    subst hrrk
    simp only [decide_eq_true_eq]
    rw [aggRow_getV_orderID, Row.getV_eraseCol lr "_source" "OrderID" (by decide)]
    unfold groupKeys at hk
    have hk2 := mem_of_mem_dedupBy id _ _ hk
    obtain ⟨r2, hr2, hr2k⟩ := List.mem_filterMap.mp hk2
    rw [normalizeDetails_rows od od2 hod2] at hr2
    obtain ⟨dr, hdr, hdrr⟩ := List.mem_map.mp hr2
    subst hdrr
    rw [detailRowF_getV_other dr "OrderID" (by decide) (by decide) (by decide)
      (by decide) (by decide)] at hr2k
    intro hc
    exact hno dr hdr (by rw [hr2k, ← hc])
  have hdc_found : ∀ rr ∈ ds.rows, ∃ n : ℕ,
      rr.getV "DetailCount" = some (Value.vNum (n : ℚ)) := by
    intro rr hrr
    rw [detail_summary_ok od2 ds hds] at hrr
    obtain ⟨k, _, hrrk⟩ := List.mem_map.mp hrr
    subst hrrk
    rw [aggRow_getV_detailCount]
    refine ⟨(od2.rows.filter (fun r => r.getV "OrderID" = some k)).length, ?_⟩
    have hone : ∀ r ∈ od2.rows.filter (fun r => r.getV "OrderID" = some k),
        numCell (r.getV "DetailCount") = 1 := by
      intro r hr
      have hr2 : r ∈ od2.rows := List.mem_of_mem_filter hr
      rw [normalizeDetails_rows od od2 hod2] at hr2
      obtain ⟨dr, _, hdrr⟩ := List.mem_map.mp hr2
      subst hdrr
      rw [detailRowF_getV_detailCount]
      rfl
    rw [List.map_congr_left hone, sum_ones_eq_length]
  refine ⟨by rw [hrows, List.length_map], ?_, ?_⟩
  · intro fr hfr
    rw [hrows] at hfr
    obtain ⟨lr, hlr, hfrl⟩ := List.mem_map.mp hfr
    subst hfrl
    rw [factRowF_getV_detailCount]
    cases hf : ds.rows.find? (fun rr =>
        rr.getV "OrderID" = (lr.eraseCol "_source").getV "OrderID") with
    | none =>
      rw [joinDetail_getV_none ds _ "DetailCount" hf
        (hbind lr hlr "DetailCount" (by rw [hdscols]; decide) (by decide) (by decide))]
      refine ⟨0, ?_⟩
      rw [show (toNumeric (none : Option Value)).getD 0 = 0 from rfl, ratTrunc_zero]
      norm_num
    | some rr =>
      have hrrmem := List.mem_of_find?_eq_some hf
      rw [joinDetail_getV_found ds _ rr "DetailCount" hf
        (hbind lr hlr "DetailCount" (by rw [hdscols]; decide) (by decide) (by decide))
        (by rw [hdscols]; decide)]
      obtain ⟨n, hn⟩ := hdc_found rr hrrmem
      rw [hn]
      refine ⟨n, ?_⟩
      rw [show toNumeric (some (Value.vNum ((n : ℕ) : ℚ))) = some ((n : ℕ) : ℚ) from rfl,
        show (some ((n : ℕ) : ℚ)).getD 0 = ((n : ℕ) : ℚ) from rfl, ratTrunc_natCast,
        Int.cast_natCast]
  · rw [hrows]
    rw [List.forall₂_map_right_iff]
    rw [List.forall₂_same]
    intro lr hlr hno
    have hf := hnof lr hlr hno
    refine ⟨?_, ?_, ?_, ?_⟩
    · rw [factRowF_getV_detailCount, joinDetail_getV_none ds _ "DetailCount" hf
        (hbind lr hlr "DetailCount" (by rw [hdscols]; decide) (by decide) (by decide))]
      rw [show (toNumeric (none : Option Value)).getD 0 = 0 from rfl, ratTrunc_zero]
      norm_num
    · rw [factRowF_getV_totalQuantity, joinDetail_getV_none ds _ "TotalQuantity" hf
        (hbind lr hlr "TotalQuantity" (by rw [hdscols]; decide) (by decide) (by decide))]
      rfl
    · rw [factRowF_getV_averageDiscount, joinDetail_getV_none ds _ "AverageDiscount" hf
        (hbind lr hlr "AverageDiscount" (by rw [hdscols]; decide) (by decide) (by decide))]
      rfl
    · rw [factRowF_getV_totalLineTotal, joinDetail_getV_none ds _ "TotalLineTotal" hf
        (hbind lr hlr "TotalLineTotal" (by rw [hdscols]; decide) (by decide) (by decide))]
      rfl

/-- Witness for C7 at `c7Orders`/`c7Details`: the hypotheses hold and the
conclusion instantiates, order 2 having no details. -/
theorem C7_witness :
    (∀ r ∈ c7Orders.rows, ∀ p ∈ r, p.1 ∈ c7Orders.cols) ∧
    ((okOrDefault (build_fact c7Orders c7Details)).rows.length = c7Orders.rows.length ∧
     (∀ fr ∈ (okOrDefault (build_fact c7Orders c7Details)).rows, ∃ n : ℕ,
       fr.getV "DetailCount" = some (Value.vNum (n : ℚ))) ∧
     List.Forall₂ (fun lr fr =>
       (∀ dr ∈ c7Details.rows, dr.getV "OrderID" ≠ lr.getV "OrderID") →
         fr.getV "DetailCount" = some (Value.vNum 0) ∧
         fr.getV "TotalQuantity" = some (Value.vNum 0) ∧
         fr.getV "AverageDiscount" = some (Value.vNum 0) ∧
         fr.getV "TotalLineTotal" = some (Value.vNum 0))
       c7Orders.rows (okOrDefault (build_fact c7Orders c7Details)).rows) :=
  ⟨by decide, C7_left_join c7Orders c7Details
    (okOrDefault (build_fact c7Orders c7Details)) (by decide) rfl⟩

/-- Inversion of a successful pipeline run: names every intermediate merge
result and builder output of `build_star_schema`. -/
theorem build_star_schema_inv (src : SourceInputs) (s : StarSchema)
    (h : build_star_schema src = Except.ok s) :
    ∃ (ordersO orderDetO customersO productsO employeesO shippersO categoriesO : Option DF)
      (orders order_det ordersD customers employees shippers categories products : DF),
      merge_sources "Orders" ["OrderID"] false src.ordersX src.ordersS =
        Except.ok ordersO ∧
      merge_sources "Order Details" ["OrderID", "ProductID"] false
        src.orderDetX src.orderDetS = Except.ok orderDetO ∧
      merge_sources "Customers" ["CustomerID"] true src.customersX src.customersS =
        Except.ok customersO ∧
      merge_sources "Products" ["ProductID"] true src.productsX src.productsS =
        Except.ok productsO ∧
      merge_sources "Employees" ["EmployeeID"] true src.employeesX src.employeesS =
        Except.ok employeesO ∧
      merge_sources "Shippers" ["ShipperID"] true src.shippersX src.shippersS =
        Except.ok shippersO ∧
      merge_sources "Categories" ["CategoryID"] true src.categoriesX src.categoriesS =
        Except.ok categoriesO ∧
      ordersO = some orders ∧ orderDetO = some order_det ∧
      customersO = some customers ∧ employeesO = some employees ∧
      shippersO = some shippers ∧ categoriesO = some categories ∧
      productsO = some products ∧
      cleanOrderDates orders = Except.ok ordersD ∧
      build_dim_time ordersD = Except.ok s.dim_time ∧
      build_dim_customer customers = Except.ok s.dim_customer ∧
      build_dim_employee employees = Except.ok s.dim_employee ∧
      build_dim_shipper shippers = Except.ok s.dim_shipper ∧
      build_dim_categories categories = Except.ok s.dim_categories ∧
      build_dim_product products s.dim_categories = Except.ok s.dim_product ∧
      build_fact ordersD order_det = Except.ok s.fact_sales := by
  unfold build_star_schema at h
  cases h1 : merge_sources "Orders" ["OrderID"] false src.ordersX src.ordersS with
  | error e => rw [h1, except_bind_error] at h; exact Except.noConfusion h
  | ok ordersO =>
  rw [h1, except_bind_ok] at h
  cases h2 : merge_sources "Order Details" ["OrderID", "ProductID"] false
      src.orderDetX src.orderDetS with
  | error e => rw [h2, except_bind_error] at h; exact Except.noConfusion h
  | ok orderDetO =>
  rw [h2, except_bind_ok] at h
  cases h3 : merge_sources "Customers" ["CustomerID"] true
      src.customersX src.customersS with
  | error e => rw [h3, except_bind_error] at h; exact Except.noConfusion h
  | ok customersO =>
  rw [h3, except_bind_ok] at h
  cases h4 : merge_sources "Products" ["ProductID"] true src.productsX src.productsS with
  | error e => rw [h4, except_bind_error] at h; exact Except.noConfusion h
  | ok productsO =>
  rw [h4, except_bind_ok] at h
  cases h5 : merge_sources "Employees" ["EmployeeID"] true
      src.employeesX src.employeesS with
  | error e => rw [h5, except_bind_error] at h; exact Except.noConfusion h
  | ok employeesO =>
  rw [h5, except_bind_ok] at h
  cases h6 : merge_sources "Shippers" ["ShipperID"] true src.shippersX src.shippersS with
  | error e => rw [h6, except_bind_error] at h; exact Except.noConfusion h
  | ok shippersO =>
  rw [h6, except_bind_ok] at h
  cases h7 : merge_sources "Categories" ["CategoryID"] true
      src.categoriesX src.categoriesS with
  | error e => rw [h7, except_bind_error] at h; exact Except.noConfusion h
  | ok categoriesO =>
  rw [h7, except_bind_ok] at h
  cases hro : ordersO with
  | none => rw [hro] at h; exact Except.noConfusion h
  | some orders =>
  rw [hro, show requireDF (some orders) = Except.ok orders from rfl, except_bind_ok] at h
  cases hrd : orderDetO with
  | none => rw [hrd] at h; exact Except.noConfusion h
  | some order_det =>
  rw [hrd, show requireDF (some order_det) = Except.ok order_det from rfl,
    except_bind_ok] at h
  cases hcd : cleanOrderDates orders with
  | error e => rw [hcd, except_bind_error] at h; exact Except.noConfusion h
  | ok ordersD =>
  rw [hcd, except_bind_ok] at h
  cases hdt : build_dim_time ordersD with
  | error e => rw [hdt, except_bind_error] at h; exact Except.noConfusion h
  | ok dim_time =>
  rw [hdt, except_bind_ok] at h
  cases hrc : customersO with
  | none => rw [hrc] at h; exact Except.noConfusion h
  | some customers =>
  rw [hrc, show requireDF (some customers) = Except.ok customers from rfl,
    except_bind_ok] at h
  cases hdc : build_dim_customer customers with
  | error e => rw [hdc, except_bind_error] at h; exact Except.noConfusion h
  | ok dim_customer =>
  rw [hdc, except_bind_ok] at h
  cases hre : employeesO with
  | none => rw [hre] at h; exact Except.noConfusion h
  | some employees =>
  rw [hre, show requireDF (some employees) = Except.ok employees from rfl,
    except_bind_ok] at h
  cases hde : build_dim_employee employees with
  | error e => rw [hde, except_bind_error] at h; exact Except.noConfusion h
  | ok dim_employee =>
  rw [hde, except_bind_ok] at h
  cases hrs : shippersO with
  | none => rw [hrs] at h; exact Except.noConfusion h
  | some shippers =>
  rw [hrs, show requireDF (some shippers) = Except.ok shippers from rfl,
    except_bind_ok] at h
  cases hdsh : build_dim_shipper shippers with
  | error e => rw [hdsh, except_bind_error] at h; exact Except.noConfusion h
  | ok dim_shipper =>
  rw [hdsh, except_bind_ok] at h
  cases hrg : categoriesO with
  | none => rw [hrg] at h; exact Except.noConfusion h
  | some categories =>
  rw [hrg, show requireDF (some categories) = Except.ok categories from rfl,
    except_bind_ok] at h
  cases hdg : build_dim_categories categories with
  | error e => rw [hdg, except_bind_error] at h; exact Except.noConfusion h
  | ok dim_categories =>
  rw [hdg, except_bind_ok] at h
  cases hrp : productsO with
  | none => rw [hrp] at h; exact Except.noConfusion h
  | some products =>
  rw [hrp, show requireDF (some products) = Except.ok products from rfl,
    except_bind_ok] at h
  cases hdp : build_dim_product products dim_categories with
  | error e => rw [hdp, except_bind_error] at h; exact Except.noConfusion h
  | ok dim_product =>
  rw [hdp, except_bind_ok] at h
  cases hbf : build_fact ordersD order_det with
  | error e => rw [hbf, except_bind_error] at h; exact Except.noConfusion h
  | ok fact =>
  rw [hbf, except_bind_ok] at h
  have hs := (Except.ok.inj h).symm
  subst hs
  exact ⟨some orders, some order_det, some customers, some products, some employees,
    some shippers, some categories, orders, order_det, ordersD, customers, employees,
    shippers, categories, products,
    rfl, rfl, rfl, rfl, rfl, rfl, rfl, rfl, rfl, rfl,
    rfl, rfl, rfl, rfl, hcd, hdt, hdc, hde, hdsh, hdg, hdp, hbf⟩

/-- A column that the aggregate does not contribute reads through the
join unchanged. -/
theorem joinDetail_getV_outside (ds : DF) (er : Row) (c : String)
    (hc : c ∉ ds.cols.filter (fun c2 => c2 ≠ "OrderID")) :
    (joinDetail ds er).getV c = er.getV c := by
  unfold joinDetail
  cases hf : ds.rows.find? (fun rr => rr.getV "OrderID" = er.getV "OrderID") with
  | none =>
    rw [Row.getV_append]
    cases hl : List.lookup c er with
    | some v => simp [Row.getV, hl]
    | none =>
      rw [show ((ds.cols.filter (fun c2 => c2 ≠ "OrderID")).map
          (fun c2 => (c2, (none : Option Value)))) =
        ((ds.cols.filter (fun c2 => c2 ≠ "OrderID")).map
          (fun c2 => (c2, (fun _ => (none : Option Value)) c2))) from rfl,
        Row.getV_reindexed (ds.cols.filter (fun c2 => c2 ≠ "OrderID"))
          (fun _ => none) c, if_neg hc]
      simp [Row.getV, hl]
  | some rr =>
    rw [Row.getV_append]
    cases hl : List.lookup c er with
    | some v => simp [Row.getV, hl]
    | none =>
      rw [show ((ds.cols.filter (fun c2 => c2 ≠ "OrderID")).map
          (fun c2 => (c2, rr.getV c2))) =
        ((ds.cols.filter (fun c2 => c2 ≠ "OrderID")).map
          (fun c2 => (c2, (fun c3 => rr.getV c3) c2))) from rfl,
        Row.getV_reindexed (ds.cols.filter (fun c2 => c2 ≠ "OrderID"))
          (fun c3 => rr.getV c3) c, if_neg hc]
      simp [Row.getV, hl]

/-- The fact TimeKey of a joined order row is the `YYYYMMDD` key of its
re-normalised order date. -/
theorem factRowF_getV_timeKey (ds : DF) (lr : Row)
    (hc : "OrderDate" ∉ ds.cols.filter (fun c2 => c2 ≠ "OrderID")) :
    (factRowF ds lr).getV "TimeKey" =
      some (Value.vNum ((((toDatetime (lr.getV "OrderDate")).getD
        defaultDate).timeKey : ℤ) : ℚ)) := by
  unfold factRowF
  rw [getV_applyCol_other _ _ _ _ (by decide), getV_applyCol_other _ _ _ _ (by decide),
    getV_applyCol_other _ _ _ _ (by decide),
    renameCols_fact_skip _ _ (by decide) (by decide) (by decide) (by decide) (by decide),
    getV_applyCol_other _ _ _ _ (by decide), getV_applyCol_other _ _ _ _ (by decide),
    getV_applyCol_other _ _ _ _ (by decide), getV_applyCol_other _ _ _ _ (by decide),
    getV_applyCol_other _ _ _ _ (by decide),
    getV_applyRow_same,
    getV_applyCol_same,
    joinDetail_getV_outside ds _ "OrderDate" hc,
    Row.getV_eraseCol lr "_source" "OrderDate" (by decide),
    show toDatetime (some (Value.vDate ((toDatetime (lr.getV "OrderDate")).getD
      defaultDate))) = some ((toDatetime (lr.getV "OrderDate")).getD defaultDate) from rfl]
  rfl

/-- The rows of a successfully built Time dimension. -/
theorem build_dim_time_ok (ordersD dt : DF) (h : build_dim_time ordersD = Except.ok dt) :
    dt.rows = dedupBy id ((ordersD.rows.map (fun r => toDatetime (r.getV "OrderDate"))).map
      (fun od => mkTimeRow (od.getD defaultDate))) := by
  unfold build_dim_time at h
  by_cases h1 : "OrderDate" ∈ ordersD.cols
  · rw [if_pos h1] at h
    by_cases h2 : (ordersD.rows.map (fun r => toDatetime (r.getV "OrderDate"))).all
        Option.isSome = true
    · rw [if_pos h2] at h
      have h3 := (Except.ok.inj h).symm
      subst h3
      rfl
    · rw [if_neg h2] at h
      cases h
  · rw [if_neg h1] at h
    cases h

/-- The TimeKey cell of a Time-dimension row. -/
theorem mkTimeRow_getV_timeKey (t : Timestamp) :
    (mkTimeRow t).getV "TimeKey" = some (Value.vNum (t.timeKey : ℚ)) := by
  simp only [mkTimeRow]
  rw [Row.getV_cons, if_pos rfl]

unseal Rat.mul Rat.add Rat.sub Rat.inv in
/-- Counterexample to C1 as stated: on `c1Src` the pipeline succeeds but
the fact table carries CustomerKey `B` while the Customer dimension only
carries `A`, an orphaned non-null foreign key. -/
theorem C1_counterexample :
    build_star_schema c1Src = Except.ok (runStar c1Src) ∧
    fkResolved (runStar c1Src) = false :=
  ⟨rfl, by decide⟩

/-- Claim C1, amended: on every successful run, every fact row's TimeKey
appears in the Time dimension.  The analogous completeness for
CustomerKey, EmployeeKey and ShipperKey is refuted by
`C1_counterexample`: nothing relates the reconciled Orders foreign keys
to the dimension inputs. -/
theorem C1_timekey (src : SourceInputs) (s : StarSchema)
    (h : build_star_schema src = Except.ok s) :
    ∀ fr ∈ s.fact_sales.rows, ∃ tr ∈ s.dim_time.rows,
      tr.getV "TimeKey" = fr.getV "TimeKey" := by
  obtain ⟨ordersO, orderDetO, customersO, productsO, employeesO, shippersO, categoriesO,
    orders, order_det, ordersD, customers, employees, shippers, categories, products,
    h1, h2, h3, h4, h5, h6, h7, ho, hd, hc2, he, hsh, hg, hp,
    hcd, hdt, hdc, hde, hdsh, hdg, hdp, hbf⟩ := build_star_schema_inv src s h
  obtain ⟨od2, ds, hod2, hds, hdscols, hsep, hnodup, hrows⟩ :=
    build_fact_shape ordersD order_det s.fact_sales hbf
  intro fr hfr
  rw [hrows] at hfr
  obtain ⟨lr, hlr, hfrl⟩ := List.mem_map.mp hfr
  subst hfrl
  rw [factRowF_getV_timeKey ds lr (by rw [hdscols]; decide)]
  refine ⟨mkTimeRow ((toDatetime (lr.getV "OrderDate")).getD defaultDate), ?_, ?_⟩
  · rw [build_dim_time_ok ordersD s.dim_time hdt]
    have hx : mkTimeRow ((toDatetime (lr.getV "OrderDate")).getD defaultDate) ∈
        (ordersD.rows.map (fun r => toDatetime (r.getV "OrderDate"))).map
          (fun od => mkTimeRow (od.getD defaultDate)) :=
      List.mem_map.mpr ⟨toDatetime (lr.getV "OrderDate"),
        List.mem_map.mpr ⟨lr, hlr, rfl⟩, rfl⟩
    obtain ⟨y, hy, hyx⟩ := exists_mem_dedupBy id _ _ hx
    have hyx2 : y = mkTimeRow ((toDatetime (lr.getV "OrderDate")).getD defaultDate) := hyx
    rw [← hyx2]
    exact hy
  · rw [mkTimeRow_getV_timeKey]

/-- Witness for C1 at `egSrc`: the run succeeds and the amended TimeKey
completeness instantiates. -/
theorem C1_witness :
    build_star_schema egSrc = Except.ok (runStar egSrc) ∧
    ∀ fr ∈ (runStar egSrc).fact_sales.rows, ∃ tr ∈ (runStar egSrc).dim_time.rows,
      tr.getV "TimeKey" = fr.getV "TimeKey" :=
  ⟨rfl, C1_timekey egSrc (runStar egSrc) rfl⟩

/-- After `drop_duplicates` over a key whose column was non-null in every
surviving row, the key column is non-null and pairwise distinct. -/
theorem key_props_of_dedup (l : List Row) (c : String)
    (hall : ∀ r ∈ l, (r.getV c).isSome = true) :
    (∀ r ∈ dedupBy (keyOf [c]) l, (r.getV c).isSome = true) ∧
    ((dedupBy (keyOf [c]) l).map (fun r => r.getV c)).Nodup := by
  constructor
  · intro r hr
    exact hall r (mem_of_mem_dedupBy (keyOf [c]) l r hr)
  · have h2 := nodup_map_dedupBy (keyOf [c]) l
    have h3 : (dedupBy (keyOf [c]) l).map (keyOf [c]) =
        ((dedupBy (keyOf [c]) l).map (fun r => r.getV c)).map (fun x => [x]) := by
      rw [List.map_map]
      rfl
    rw [h3] at h2
    exact List.Nodup.of_map _ h2

/-- A successfully built Customer dimension is a key-dedup of rows with
non-null CustomerKey. -/
theorem build_dim_customer_shape (customers dc : DF)
    (h : build_dim_customer customers = Except.ok dc) :
    ∃ l : List Row, dc.rows = dedupBy (keyOf ["CustomerKey"]) l ∧
      ∀ r ∈ l, (r.getV "CustomerKey").isSome = true := by
  unfold build_dim_customer at h
  cases hsc : customers.selectCols ["CustomerID", "CompanyName", "City", "Country",
      "Phone"] with
  | error e => rw [hsc, except_bind_error] at h; exact Except.noConfusion h
  | ok d0 =>
    rw [hsc, except_bind_ok] at h
    have h2 := (Except.ok.inj h).symm
    subst h2
    refine ⟨((d0.rename [("CustomerID", "CustomerKey"), ("CompanyName", "CustomerName"),
      ("City", "CustomerCity"), ("Country", "CustomerCountry")]).dropna
        ["CustomerKey"]).rows, rfl, ?_⟩
    intro r hr
    have := (List.mem_filter.mp hr).2
    simp only [List.all_cons, List.all_nil, Bool.and_true] at this
    exact this

/-- A successfully built Employee dimension is a key-dedup of rows with
non-null EmployeeKey. -/
theorem build_dim_employee_shape (employees de : DF)
    (h : build_dim_employee employees = Except.ok de) :
    ∃ l : List Row, de.rows = dedupBy (keyOf ["EmployeeKey"]) l ∧
      ∀ r ∈ l, (r.getV "EmployeeKey").isSome = true := by
  unfold build_dim_employee at h
  by_cases h1 : "FirstName" ∈ employees.cols ∧ "LastName" ∈ employees.cols
  · rw [if_pos h1] at h
    simp only [] at h
    cases hsc : (employees.setColByRow "EmployeeFullName" (fun r =>
        match r.getV "FirstName", r.getV "LastName" with
        | some (Value.vStr f), some (Value.vStr l) => some (Value.vStr (f ++ " " ++ l))
        | _, _ => none)).selectCols ["EmployeeID", "EmployeeFullName", "FirstName",
          "LastName", "Title", "City", "Country"] with
    | error e => rw [hsc, except_bind_error] at h; exact Except.noConfusion h
    | ok d0 =>
      rw [hsc, except_bind_ok] at h
      have h2 := (Except.ok.inj h).symm
      subst h2
      refine ⟨((d0.rename [("EmployeeID", "EmployeeKey")]).dropna ["EmployeeKey"]).rows,
        rfl, ?_⟩
      intro r hr
      have := (List.mem_filter.mp hr).2
      simp only [List.all_cons, List.all_nil, Bool.and_true] at this
      exact this
  · rw [if_neg h1] at h
    cases h

/-- A successfully built Shipper dimension is a key-dedup of rows with
non-null ShipperKey. -/
theorem build_dim_shipper_shape (shippers dsh : DF)
    (h : build_dim_shipper shippers = Except.ok dsh) :
    ∃ l : List Row, dsh.rows = dedupBy (keyOf ["ShipperKey"]) l ∧
      ∀ r ∈ l, (r.getV "ShipperKey").isSome = true := by
  unfold build_dim_shipper at h
  cases hsc : shippers.selectCols ["ShipperID", "CompanyName", "Phone"] with
  | error e => rw [hsc, except_bind_error] at h; exact Except.noConfusion h
  | ok d0 =>
    rw [hsc, except_bind_ok] at h
    simp only [] at h
    cases hat : astypeInt64Col (d0.rename [("ShipperID", "ShipperKey"),
        ("CompanyName", "ShipperName")]) "ShipperKey" with
    | error e => rw [hat, except_bind_error] at h; exact Except.noConfusion h
    | ok d1 =>
      rw [hat, except_bind_ok] at h
      have h2 := (Except.ok.inj h).symm
      subst h2
      refine ⟨(d1.dropna ["ShipperKey"]).rows, rfl, ?_⟩
      intro r hr
      have := (List.mem_filter.mp hr).2
      simp only [List.all_cons, List.all_nil, Bool.and_true] at this
      exact this

/-- The join-onward tail of the Product dimension builder yields a
key-dedup of rows with non-null ProductKey. -/
theorem build_dim_product_tail (p : DF) (dcat dp : DF)
    (h : (do
      let p2 ← p.mergeLeft dcat "CategoryID"
      let p3 ← p2.mapColE "CategoryName" (fun v =>
        match v with
        | none => some (Value.vStr "Unknown")
        | some x => some x)
      if "ProductID" ∈ p3.cols ∧ "ProductName" ∈ p3.cols ∧ "UnitPrice" ∈ p3.cols ∧
          "Discontinued" ∈ p3.cols then
        if (p3.rows.map (fun r => toNumeric (r.getV "ProductID"))).all Option.isSome then
          pure (DF.dropDuplicates
            { cols := ["ProductKey", "ProductName", "UnitPrice", "CategoryName",
                "Discontinued"],
              rows := p3.rows.map (fun r =>
                [("ProductKey", some (Value.vNum
                   ((ratTrunc ((toNumeric (r.getV "ProductID")).getD 0) : ℤ) : ℚ))),
                 ("ProductName", r.getV "ProductName"),
                 ("UnitPrice", r.getV "UnitPrice"),
                 ("CategoryName", r.getV "CategoryName"),
                 ("Discontinued", some (Value.vBool (pyBool (r.getV "Discontinued"))))]) }
            ["ProductKey"])
        else Except.error (EtlError.valueError "cannot convert NaN to int")
      else Except.error (EtlError.keyError "product columns")) = Except.ok dp) :
    ∃ l : List Row, dp.rows = dedupBy (keyOf ["ProductKey"]) l ∧
      ∀ r ∈ l, (r.getV "ProductKey").isSome = true := by
  cases hp2 : p.mergeLeft dcat "CategoryID" with
  | error e => rw [hp2, except_bind_error] at h; exact Except.noConfusion h
  | ok p2 =>
    rw [hp2, except_bind_ok] at h
    cases hp3 : p2.mapColE "CategoryName" (fun v =>
        match v with
        | none => some (Value.vStr "Unknown")
        | some x => some x) with
    | error e => rw [hp3, except_bind_error] at h; exact Except.noConfusion h
    | ok p3 =>
      rw [hp3, except_bind_ok] at h
      by_cases h1 : "ProductID" ∈ p3.cols ∧ "ProductName" ∈ p3.cols ∧
          "UnitPrice" ∈ p3.cols ∧ "Discontinued" ∈ p3.cols
      · rw [if_pos h1] at h
        by_cases h2 : (p3.rows.map (fun r => toNumeric (r.getV "ProductID"))).all
            Option.isSome = true
        · rw [if_pos h2] at h
          have h3 := (Except.ok.inj h).symm
          subst h3
          refine ⟨_, rfl, ?_⟩
          intro r hr
          obtain ⟨r0, _, hr0⟩ := List.mem_map.mp hr
          subst hr0
          rw [Row.getV_cons, if_pos rfl]
          rfl
        · rw [if_neg h2] at h
          cases h
      · rw [if_neg h1] at h
        cases h

/-- A successfully built Product dimension is a key-dedup of rows with
non-null ProductKey. -/
theorem build_dim_product_shape (products dcat dp : DF)
    (h : build_dim_product products dcat = Except.ok dp) :
    ∃ l : List Row, dp.rows = dedupBy (keyOf ["ProductKey"]) l ∧
      ∀ r ∈ l, (r.getV "ProductKey").isSome = true := by
  unfold build_dim_product at h
  cases hp1 : products.mapColE "ProductID" (fun v => (toNumeric v).map Value.vNum) with
  | error e => rw [hp1, except_bind_error] at h; exact Except.noConfusion h
  | ok p1 =>
    rw [hp1, except_bind_ok] at h
    simp only [] at h
    by_cases hinv : ((p1.rows.filter (fun r => (r.getV "ProductID").isNone)).length > 0)
    case pos => rw [if_pos hinv] at h; exact build_dim_product_tail _ dcat dp h
    case neg => rw [if_neg hinv] at h; exact build_dim_product_tail _ dcat dp h

unseal Rat.mul Rat.add Rat.sub Rat.inv in
/-- Counterexample to C2 as stated: on `c2Src`, two orders on the same
calendar date at different times of day yield two Time-dimension rows
with the same TimeKey, because `drop_duplicates()` compares the raw
timestamp column as well. -/
theorem C2_counterexample :
    build_star_schema c2Src = Except.ok (runStar c2Src) ∧
    (runStar c2Src).dim_time.rows.length = 2 ∧
    ¬ (((runStar c2Src).dim_time.rows.map (fun r => r.getV "TimeKey")).Nodup) :=
  ⟨rfl, by decide, by decide⟩

/-- Claim C2, amended: on every successful run the Customer, Employee,
Shipper and Product dimensions have non-null, pairwise distinct surrogate
keys, and the Time dimension has non-null TimeKey and pairwise distinct
rows; but the Time dimension does not have one row per distinct calendar
date — `C2_counterexample` exhibits two rows sharing a TimeKey. -/
theorem C2_dim_keys (src : SourceInputs) (s : StarSchema)
    (h : build_star_schema src = Except.ok s) :
    (∀ r ∈ s.dim_customer.rows, (r.getV "CustomerKey").isSome = true) ∧
    ((s.dim_customer.rows.map (fun r => r.getV "CustomerKey")).Nodup) ∧
    (∀ r ∈ s.dim_employee.rows, (r.getV "EmployeeKey").isSome = true) ∧
    ((s.dim_employee.rows.map (fun r => r.getV "EmployeeKey")).Nodup) ∧
    (∀ r ∈ s.dim_shipper.rows, (r.getV "ShipperKey").isSome = true) ∧
    ((s.dim_shipper.rows.map (fun r => r.getV "ShipperKey")).Nodup) ∧
    (∀ r ∈ s.dim_product.rows, (r.getV "ProductKey").isSome = true) ∧
    ((s.dim_product.rows.map (fun r => r.getV "ProductKey")).Nodup) ∧
    (∀ r ∈ s.dim_time.rows, (r.getV "TimeKey").isSome = true) ∧
    s.dim_time.rows.Nodup := by
  obtain ⟨ordersO, orderDetO, customersO, productsO, employeesO, shippersO, categoriesO,
    orders, order_det, ordersD, customers, employees, shippers, categories, products,
    h1, h2, h3, h4, h5, h6, h7, ho, hd, hc2, he, hsh, hg, hp,
    hcd, hdt, hdc, hde, hdsh, hdg, hdp, hbf⟩ := build_star_schema_inv src s h
  obtain ⟨lc, hlc, hallc⟩ := build_dim_customer_shape customers s.dim_customer hdc
  obtain ⟨le, hle, halle⟩ := build_dim_employee_shape employees s.dim_employee hde
  obtain ⟨ls, hls, halls⟩ := build_dim_shipper_shape shippers s.dim_shipper hdsh
  obtain ⟨lp, hlp, hallp⟩ := build_dim_product_shape products s.dim_categories
    s.dim_product hdp
  have hkc := key_props_of_dedup lc "CustomerKey" hallc
  have hke := key_props_of_dedup le "EmployeeKey" halle
  have hks := key_props_of_dedup ls "ShipperKey" halls
  have hkp := key_props_of_dedup lp "ProductKey" hallp
  have hdtr := build_dim_time_ok ordersD s.dim_time hdt
  refine ⟨?_, ?_, ?_, ?_, ?_, ?_, ?_, ?_, ?_, ?_⟩
  · rw [hlc]; exact hkc.1
  · rw [hlc]; exact hkc.2
  · rw [hle]; exact hke.1
  · rw [hle]; exact hke.2
  · rw [hls]; exact hks.1
  · rw [hls]; exact hks.2
  · rw [hlp]; exact hkp.1
  · rw [hlp]; exact hkp.2
  · intro r hr
    rw [hdtr] at hr
    have hr2 := mem_of_mem_dedupBy id _ _ hr
    obtain ⟨od, _, hodr⟩ := List.mem_map.mp hr2
    subst hodr
    rw [mkTimeRow_getV_timeKey]
    rfl
  · rw [hdtr]
    have h2 := nodup_map_dedupBy (id : Row → Row)
      ((ordersD.rows.map (fun r => toDatetime (r.getV "OrderDate"))).map
        (fun od => mkTimeRow (od.getD defaultDate)))
    rw [List.map_id] at h2
    exact h2

/-- Witness for C2 at `egSrc`: the run succeeds and the amended key
properties instantiate. -/
theorem C2_witness :
    build_star_schema egSrc = Except.ok (runStar egSrc) ∧
    ((∀ r ∈ (runStar egSrc).dim_customer.rows, (r.getV "CustomerKey").isSome = true) ∧
     (((runStar egSrc).dim_customer.rows.map (fun r => r.getV "CustomerKey")).Nodup) ∧
     (∀ r ∈ (runStar egSrc).dim_employee.rows, (r.getV "EmployeeKey").isSome = true) ∧
     (((runStar egSrc).dim_employee.rows.map (fun r => r.getV "EmployeeKey")).Nodup) ∧
     (∀ r ∈ (runStar egSrc).dim_shipper.rows, (r.getV "ShipperKey").isSome = true) ∧
     (((runStar egSrc).dim_shipper.rows.map (fun r => r.getV "ShipperKey")).Nodup) ∧
     (∀ r ∈ (runStar egSrc).dim_product.rows, (r.getV "ProductKey").isSome = true) ∧
     (((runStar egSrc).dim_product.rows.map (fun r => r.getV "ProductKey")).Nodup) ∧
     (∀ r ∈ (runStar egSrc).dim_time.rows, (r.getV "TimeKey").isSome = true) ∧
     (runStar egSrc).dim_time.rows.Nodup) :=
  ⟨rfl, C2_dim_keys egSrc (runStar egSrc) rfl⟩

/-- The order-identifier shift never raises a missing-dependency error. -/
theorem adjust_excel_ids_not_missing (table : String) (df : DF) (e : EtlError)
    (h : adjust_excel_ids table df = Except.error e) :
    ∀ m : String, e ≠ EtlError.missingDependency m := by
  intro m hc
  subst hc
  unfold adjust_excel_ids at h
  by_cases h1 : normTableName table = "orders" ∨ normTableName table = "order details"
  · rw [if_pos h1] at h
    by_cases h2 : "OrderID" ∈ df.cols
    · rw [if_pos h2] at h
      exact Except.noConfusion h
    · rw [if_neg h2] at h
      exact EtlError.noConfusion (Except.error.inj h)
  · rw [if_neg h1] at h
    exact Except.noConfusion h

/-- The source concatenation never raises a missing-dependency error. -/
theorem combinedTable_not_missing (table : String) (dfx dfs : Option DF) (e : EtlError)
    (h : combinedTable table dfx dfs = Except.error e) :
    ∀ m : String, e ≠ EtlError.missingDependency m := by
  cases dfx with
  | none =>
    rw [combinedTable_no_excel] at h
    exact Except.noConfusion h
  | some d0 =>
    cases ha : adjust_excel_ids table d0 with
    | error ea =>
      rw [combinedTable_excel_error table d0 dfs ea ha] at h
      rw [(Except.error.inj h)] at ha
      exact adjust_excel_ids_not_missing table d0 e ha
    | ok adj =>
      rw [combinedTable_excel_ok table d0 adj dfs ha] at h
      exact Except.noConfusion h

/-- The reconciler never raises a missing-dependency error: its only
errors are KeyErrors. -/
theorem merge_sources_not_missing (table : String) (key : List String) (dedupe : Bool)
    (dfx dfs : Option DF) (e : EtlError)
    (h : merge_sources table key dedupe dfx dfs = Except.error e) :
    ∀ m : String, e ≠ EtlError.missingDependency m := by
  cases hct : combinedTable table dfx dfs with
  | error e2 =>
    rw [merge_sources_of_combined_error table key dedupe dfx dfs e2 hct] at h
    rw [(Except.error.inj h)] at hct
    exact combinedTable_not_missing table dfx dfs e hct
  | ok dfo =>
    cases dfo with
    | none =>
      rw [merge_sources_of_combined_none table key dedupe dfx dfs hct] at h
      exact Except.noConfusion h
    | some df =>
      intro m hc
      subst hc
      unfold merge_sources at h
      rw [hct, except_bind_ok] at h
      cases dedupe with
      | false => exact Except.noConfusion h
      | true =>
        simp only [if_true] at h
        by_cases h2 : key.all (fun c => c ∈ df.cols) = true
        · rw [if_pos h2] at h
          exact Except.noConfusion h
        · rw [if_neg h2] at h
          exact EtlError.noConfusion (Except.error.inj h)

/-- Order-date cleaning never raises a missing-dependency error. -/
theorem cleanOrderDates_not_missing (orders : DF) (e : EtlError)
    (h : cleanOrderDates orders = Except.error e) :
    ∀ m : String, e ≠ EtlError.missingDependency m := by
  intro m hc
  subst hc
  unfold cleanOrderDates at h
  cases h1 : orders.mapColE "OrderDate" (fun v => (toDatetime v).map Value.vDate) with
  | error e1 =>
    rw [h1, except_bind_error] at h
    unfold DF.mapColE at h1
    by_cases h2 : "OrderDate" ∈ orders.cols
    · rw [if_pos h2] at h1
      exact Except.noConfusion h1
    · rw [if_neg h2] at h1
      rw [(Except.error.inj h)] at h1
      exact EtlError.noConfusion (Except.error.inj h1)
  | ok o1 =>
    rw [h1, except_bind_ok] at h
    simp only [] at h
    by_cases h2 : ((o1.rows.filter (fun r => (r.getV "OrderDate").isNone)).length > 0)
    · rw [if_pos h2] at h
      unfold DF.mapColE at h
      by_cases h3 : "OrderDate" ∈ o1.cols
      · rw [if_pos h3] at h
        exact Except.noConfusion h
      · rw [if_neg h3] at h
        exact EtlError.noConfusion (Except.error.inj h)
    · rw [if_neg h2] at h
      exact Except.noConfusion h

/-- The Time dimension builder never raises a missing-dependency
error. -/
theorem build_dim_time_not_missing (ordersD : DF) (e : EtlError)
    (h : build_dim_time ordersD = Except.error e) :
    ∀ m : String, e ≠ EtlError.missingDependency m := by
  intro m hc
  subst hc
  unfold build_dim_time at h
  by_cases h1 : "OrderDate" ∈ ordersD.cols
  · rw [if_pos h1] at h
    simp only [] at h
    by_cases h2 : (ordersD.rows.map (fun r => toDatetime (r.getV "OrderDate"))).all
        Option.isSome = true
    · rw [if_pos h2] at h
      exact Except.noConfusion h
    · rw [if_neg h2] at h
      exact EtlError.noConfusion (Except.error.inj h)
  · rw [if_neg h1] at h
    exact EtlError.noConfusion (Except.error.inj h)

/-- Counterexample to C9 as stated: with both Customers origins absent
(`c9Src`), reconcile does return an absent result, but the run aborts
with the TypeError of `len(None)` — not a clear missing-dependency
error. -/
theorem C9_counterexample :
    merge_sources "Customers" ["CustomerID"] true c9Src.customersX c9Src.customersS =
      Except.ok none ∧
    build_star_schema c9Src =
      Except.error (EtlError.typeError "object of type NoneType has no len") :=
  ⟨rfl, rfl⟩

/-- Claim C9, amended: when both origins of a table are absent the
reconciler returns an absent result (not an empty table), and a run with
both Customers origins absent always fails; but the failure is never a
missing-dependency error — it is the incidental TypeError of calling
`len` on `None` (or an earlier KeyError/ValueError of a preceding
stage). -/
theorem C9_absent (src : SourceInputs)
    (hx : src.customersX = none) (hs : src.customersS = none) :
    merge_sources "Customers" ["CustomerID"] true src.customersX src.customersS =
      Except.ok none ∧
    ∃ e : EtlError, build_star_schema src = Except.error e ∧
      ∀ m : String, e ≠ EtlError.missingDependency m := by
  refine ⟨by rw [hx, hs]; rfl, ?_⟩
  unfold build_star_schema
  rw [hx, hs, show merge_sources "Customers" ["CustomerID"] true none none =
    Except.ok none from rfl]
  cases h1 : merge_sources "Orders" ["OrderID"] false src.ordersX src.ordersS with
  | error e =>
    rw [except_bind_error]
    exact ⟨e, rfl, merge_sources_not_missing _ _ _ _ _ e h1⟩
  | ok ordersO =>
  rw [except_bind_ok]
  cases h2 : merge_sources "Order Details" ["OrderID", "ProductID"] false
      src.orderDetX src.orderDetS with
  | error e =>
    rw [except_bind_error]
    exact ⟨e, rfl, merge_sources_not_missing _ _ _ _ _ e h2⟩
  | ok orderDetO =>
  rw [except_bind_ok, except_bind_ok]
  cases h4 : merge_sources "Products" ["ProductID"] true src.productsX src.productsS with
  | error e =>
    rw [except_bind_error]
    exact ⟨e, rfl, merge_sources_not_missing _ _ _ _ _ e h4⟩
  | ok productsO =>
  rw [except_bind_ok]
  cases h5 : merge_sources "Employees" ["EmployeeID"] true
      src.employeesX src.employeesS with
  | error e =>
    rw [except_bind_error]
    exact ⟨e, rfl, merge_sources_not_missing _ _ _ _ _ e h5⟩
  | ok employeesO =>
  rw [except_bind_ok]
  cases h6 : merge_sources "Shippers" ["ShipperID"] true src.shippersX src.shippersS with
  | error e =>
    rw [except_bind_error]
    exact ⟨e, rfl, merge_sources_not_missing _ _ _ _ _ e h6⟩
  | ok shippersO =>
  rw [except_bind_ok]
  cases h7 : merge_sources "Categories" ["CategoryID"] true
      src.categoriesX src.categoriesS with
  | error e =>
    rw [except_bind_error]
    exact ⟨e, rfl, merge_sources_not_missing _ _ _ _ _ e h7⟩
  | ok categoriesO =>
  rw [except_bind_ok]
  cases ordersO with
  | none =>
    exact ⟨EtlError.typeError "object of type NoneType has no len", rfl,
      fun m => EtlError.noConfusion⟩
  | some orders =>
  rw [show requireDF (some orders) = Except.ok orders from rfl, except_bind_ok]
  cases orderDetO with
  | none =>
    exact ⟨EtlError.typeError "object of type NoneType has no len", rfl,
      fun m => EtlError.noConfusion⟩
  | some order_det =>
  rw [show requireDF (some order_det) = Except.ok order_det from rfl, except_bind_ok]
  cases hcd : cleanOrderDates orders with
  | error e =>
    rw [except_bind_error]
    exact ⟨e, rfl, cleanOrderDates_not_missing orders e hcd⟩
  | ok ordersD =>
  rw [except_bind_ok]
  cases hdt : build_dim_time ordersD with
  | error e =>
    rw [except_bind_error]
    exact ⟨e, rfl, build_dim_time_not_missing ordersD e hdt⟩
  | ok dim_time =>
  rw [except_bind_ok,
    show requireDF (none : Option DF) =
      Except.error (EtlError.typeError "object of type NoneType has no len") from rfl,
    except_bind_error]
  exact ⟨EtlError.typeError "object of type NoneType has no len", rfl,
    fun m => EtlError.noConfusion⟩

/-- Witness for C9 at `c9Src`: both hypotheses hold and the amended
statement instantiates. -/
theorem C9_witness :
    merge_sources "Customers" ["CustomerID"] true c9Src.customersX c9Src.customersS =
      Except.ok none ∧
    ∃ e : EtlError, build_star_schema c9Src = Except.error e ∧
      ∀ m : String, e ≠ EtlError.missingDependency m :=
  C9_absent c9Src rfl rfl

/-- Writing a cell introduces no binding key other than the written
column and the keys already present. -/
theorem Row.setV_keys (r : Row) (c : String) (v : Option Value)
    (p : String × Option Value) (hp : p ∈ r.setV c v) :
    p.1 = c ∨ ∃ q ∈ r, p.1 = q.1 := by
  unfold Row.setV at hp
  by_cases ha : r.any (fun q => decide (q.1 = c)) = true
  · rw [if_pos ha] at hp
    obtain ⟨q, hq, hqp⟩ := List.mem_map.mp hp
    by_cases hqc : q.1 = c
    · rw [if_pos hqc] at hqp
      subst hqp
      exact Or.inl rfl
    · rw [if_neg hqc] at hqp
      subst hqp
      exact Or.inr ⟨q, hq, rfl⟩
  · rw [if_neg ha] at hp
    rcases List.mem_append.mp hp with h1 | h1
    · exact Or.inr ⟨p, h1, rfl⟩
    · rw [List.mem_singleton.mp h1]
      exact Or.inl rfl

/-- A column update preserves the absence of a binding key. -/
theorem noKey_applyCol (c c2 : String) (f : Option Value → Option Value) (r : Row)
    (hc : c ≠ c2) (h : ∀ p ∈ r, p.1 ≠ c2) :
    ∀ p ∈ applyCol c f r, p.1 ≠ c2 := by
  intro p hp
  rcases Row.setV_keys r c _ p hp with h1 | ⟨q, hq, hpq⟩
  · rw [h1]; exact hc
  · rw [hpq]; exact h q hq

/-- A row-function assignment preserves the absence of a binding key. -/
theorem noKey_applyRow (c c2 : String) (f : Row → Option Value) (r : Row)
    (hc : c ≠ c2) (h : ∀ p ∈ r, p.1 ≠ c2) :
    ∀ p ∈ applyRow c f r, p.1 ≠ c2 := by
  intro p hp
  rcases Row.setV_keys r c _ p hp with h1 | ⟨q, hq, hpq⟩
  · rw [h1]; exact hc
  · rw [hpq]; exact h q hq

/-- The join introduces no binding key beyond the left row's keys and
the aggregate's non-key columns. -/
theorem noKey_joinDetail (ds : DF) (er : Row) (c2 : String)
    (her : ∀ p ∈ er, p.1 ≠ c2)
    (hds : ∀ c ∈ ds.cols.filter (fun c3 => c3 ≠ "OrderID"), c ≠ c2) :
    ∀ p ∈ joinDetail ds er, p.1 ≠ c2 := by
  intro p hp
  unfold joinDetail at hp
  cases hf : ds.rows.find? (fun rr => rr.getV "OrderID" = er.getV "OrderID") with
  | none =>
    rw [hf] at hp
    rcases List.mem_append.mp hp with h1 | h1
    · exact her p h1
    · obtain ⟨c, hc, hcp⟩ := List.mem_map.mp h1
      rw [← hcp]
      exact hds c hc
  | some rr =>
    rw [hf] at hp
    rcases List.mem_append.mp hp with h1 | h1
    · exact her p h1
    · obtain ⟨c, hc, hcp⟩ := List.mem_map.mp h1
      rw [← hcp]
      exact hds c hc

/-- Only `CustomerID` is renamed to `CustomerKey` by the fact-table
renaming. -/
theorem factRename_lookup_customerKey (s : String)
    (h : List.lookup s factRename = some "CustomerKey") : s = "CustomerID" := by
  simp only [factRename, List.lookup] at h
  by_cases h1 : s = "OrderID"
  · subst h1
    exact absurd (Option.some.inj h) (by decide)
  · rw [show (s == "OrderID") = false from beq_eq_false_iff_ne.mpr h1] at h
    by_cases h2 : s = "CustomerID"
    · exact h2
    · rw [show (s == "CustomerID") = false from beq_eq_false_iff_ne.mpr h2] at h
      by_cases h3 : s = "EmployeeID"
      · subst h3
        exact absurd (Option.some.inj h) (by decide)
      · rw [show (s == "EmployeeID") = false from beq_eq_false_iff_ne.mpr h3] at h
        by_cases h4 : s = "ShipVia"
        · subst h4
          exact absurd (Option.some.inj h) (by decide)
        · rw [show (s == "ShipVia") = false from beq_eq_false_iff_ne.mpr h4] at h
          exact Option.noConfusion h

/-- The fact CustomerKey cell is always a non-null string. -/
theorem factRowF_getV_customerKey_str (ds : DF) (lr : Row) :
    ∃ t : String, (factRowF ds lr).getV "CustomerKey" = some (Value.vStr t) := by
  unfold factRowF
  rw [getV_applyCol_other _ _ _ _ (by decide), getV_applyCol_other _ _ _ _ (by decide),
    getV_applyCol_same]
  exact ⟨_, rfl⟩

/-- The fact CustomerKey is the trimmed Python string form of the order
row's CustomerID cell. -/
theorem factRowF_getV_customerKey (ds : DF) (lr : Row)
    (hds : ∀ c ∈ ds.cols.filter (fun c3 => c3 ≠ "OrderID"), c ≠ "CustomerKey")
    (hdsid : "CustomerID" ∉ ds.cols.filter (fun c3 => c3 ≠ "OrderID"))
    (hlr : ∀ p ∈ lr, p.1 ≠ "CustomerKey") :
    (factRowF ds lr).getV "CustomerKey" =
      some (Value.vStr (pyStrip (pyStr (lr.getV "CustomerID")))) := by
  have her : ∀ p ∈ lr.eraseCol "_source", p.1 ≠ "CustomerKey" :=
    fun p hp => hlr p (List.mem_of_mem_filter hp)
  have hjd := noKey_joinDetail ds (lr.eraseCol "_source") "CustomerKey" her hds
  have h0 := noKey_applyCol "OrderDate" "CustomerKey"
    (fun v => some (Value.vDate ((toDatetime v).getD defaultDate))) _ (by decide) hjd
  have h1 := noKey_applyRow "TimeKey" "CustomerKey"
    (fun r => some (Value.vNum ((((toDatetime (r.getV "OrderDate")).getD
      defaultDate).timeKey : ℤ) : ℚ))) _ (by decide) h0
  have h2 := noKey_applyCol "DetailCount" "CustomerKey"
    (fun v => some (Value.vNum ((ratTrunc ((toNumeric v).getD 0) : ℤ) : ℚ)))
    _ (by decide) h1
  have h3 := noKey_applyCol "TotalQuantity" "CustomerKey"
    (fun v => some (Value.vNum ((toNumeric v).getD 0))) _ (by decide) h2
  have h4 := noKey_applyCol "AverageDiscount" "CustomerKey"
    (fun v => some (Value.vNum ((toNumeric v).getD 0))) _ (by decide) h3
  have h5 := noKey_applyCol "TotalLineTotal" "CustomerKey"
    (fun v => some (Value.vNum ((toNumeric v).getD 0))) _ (by decide) h4
  have h6 := noKey_applyCol "Freight" "CustomerKey"
    (fun v => some (Value.vNum ((toNumeric v).getD 0))) _ (by decide) h5
  unfold factRowF
  rw [getV_applyCol_other _ _ _ _ (by decide), getV_applyCol_other _ _ _ _ (by decide),
    getV_applyCol_same,
    Row.getV_renameCols factRename "CustomerID" "CustomerKey" rfl _ ?hb,
    getV_applyCol_other _ _ _ _ (by decide), getV_applyCol_other _ _ _ _ (by decide),
    getV_applyCol_other _ _ _ _ (by decide), getV_applyCol_other _ _ _ _ (by decide),
    getV_applyCol_other _ _ _ _ (by decide),
    getV_applyRow_other _ _ _ _ (by decide), getV_applyCol_other _ _ _ _ (by decide),
    joinDetail_getV_outside ds _ "CustomerID" hdsid,
    Row.getV_eraseCol lr "_source" "CustomerID" (by decide)]
  case hb =>
    intro p hp hmatch
    cases hl : List.lookup p.1 factRename with
    | some d =>
      rw [hl] at hmatch
      have hd : d = "CustomerKey" := hmatch
      subst hd
      exact factRename_lookup_customerKey p.1 hl
    | none =>
      rw [hl] at hmatch
      have hd : p.1 = "CustomerKey" := hmatch
      exact absurd hd (h6 p hp)

unseal Rat.mul Rat.add Rat.sub Rat.inv in
/-- Counterexample to C10 as stated: on `c10Src` a null customer
identifier becomes the fact CustomerKey `"nan"`, and the Customer
dimension does carry `"nan"` as a key, because a customers row may hold
that literal text. -/
theorem C10_counterexample :
    build_star_schema c10Src = Except.ok (runStar c10Src) ∧
    (∃ fr ∈ (runStar c10Src).fact_sales.rows,
      fr.getV "CustomerKey" = some (Value.vStr "nan")) ∧
    ∃ cr ∈ (runStar c10Src).dim_customer.rows,
      cr.getV "CustomerKey" = some (Value.vStr "nan") :=
  ⟨rfl, by decide, by decide⟩

/-- Claim C10, amended: in a successful fact build over an Orders table
whose rows bind only declared columns, none named CustomerKey, every
fact row's CustomerKey is a non-null string, namely the
whitespace-trimmed `str()` image of the order's CustomerID — the literal
text `nan` when the identifier is null.  That `nan` is carried by no
Customer dimension row is refuted by `C10_counterexample`. -/
theorem C10_customerKey (ordersD od fact : DF)
    (hconf : ∀ r ∈ ordersD.rows, ∀ p ∈ r, p.1 ∈ ordersD.cols)
    (hck : "CustomerKey" ∉ ordersD.cols)
    (h : build_fact ordersD od = Except.ok fact) :
    (∀ fr ∈ fact.rows, ∃ t : String, fr.getV "CustomerKey" = some (Value.vStr t)) ∧
    List.Forall₂ (fun lr fr =>
      fr.getV "CustomerKey" = some (Value.vStr (pyStrip (pyStr (lr.getV "CustomerID")))) ∧
      (lr.getV "CustomerID" = none →
        fr.getV "CustomerKey" = some (Value.vStr "nan"))) ordersD.rows fact.rows := by
  obtain ⟨od2, ds, hod2, hds, hdscols, hsep, hnodup, hrows⟩ :=
    build_fact_shape ordersD od fact h
  constructor
  · intro fr hfr
    rw [hrows] at hfr
    obtain ⟨lr, _, hfrl⟩ := List.mem_map.mp hfr
    subst hfrl
    exact factRowF_getV_customerKey_str ds lr
  · rw [hrows]
    rw [List.forall₂_map_right_iff]
    rw [List.forall₂_same]
    intro lr hlr
    have hkey := factRowF_getV_customerKey ds lr
      (by rw [hdscols]; decide) (by rw [hdscols]; decide)
      (fun p hp hc => hck (hc ▸ hconf lr hlr p hp))
    refine ⟨hkey, fun hnone => ?_⟩
    rw [hkey, hnone]
    rfl

/-- Witness for C10 at `c10Orders`/`egDetails`: the hypotheses hold and
the amended statement instantiates on the null-customer order. -/
theorem C10_witness :
    ((∀ r ∈ c10Orders.rows, ∀ p ∈ r, p.1 ∈ c10Orders.cols) ∧
      "CustomerKey" ∉ c10Orders.cols) ∧
    ((∀ fr ∈ (okOrDefault (build_fact c10Orders egDetails)).rows,
       ∃ t : String, fr.getV "CustomerKey" = some (Value.vStr t)) ∧
     List.Forall₂ (fun lr fr =>
       fr.getV "CustomerKey" =
         some (Value.vStr (pyStrip (pyStr (lr.getV "CustomerID")))) ∧
       (lr.getV "CustomerID" = none →
         fr.getV "CustomerKey" = some (Value.vStr "nan")))
       c10Orders.rows (okOrDefault (build_fact c10Orders egDetails)).rows) :=
  ⟨⟨by decide, by decide⟩, C10_customerKey c10Orders egDetails
    (okOrDefault (build_fact c10Orders egDetails)) (by decide) (by decide) rfl⟩

end Northwind
